import Mathlib

/-!
Shallow embedding of the theme-configuration core of the `egui-thematic`
repository (authoritative variant: `src/config.rs`; `src/state.rs` imports
`crate::config`).  The data model (`ThemeConfig`), the merge engine
(`to_visuals`), the preset catalog, the randomizer, the code exporter and the
JSON persistence layer (the serde derive used by `save_to_file` /
`load_from_file`) are translated from the Rust source.  External toolkit
values (the two `egui::Visuals` baseline records, the random source) are
modelled as explicit parameters, and `f32` values -- copied verbatim by every
operation in the source, never computed with -- are modelled by their bit
patterns.
-/

namespace EguiThematic

/-- Model of an `f32` value by its bit pattern.  The repository only ever
copies `f32` fields verbatim (no arithmetic), so the representation is
opaque. -/
abbrev F32 := Nat

/-- Model of Rust `u8`. -/
abbrev Byte := Fin 256

/-- Model of a stored override color `[u8; 4]` (RGBA, straight alpha). -/
structure Rgba where
  r : Byte
  g : Byte
  b : Byte
  a : Byte
deriving DecidableEq, Repr

/-- Model of `egui::Color32`.  The repository never inspects the channels of a
constructed `Color32`; it is an opaque value produced by
`Color32::from_rgba_unmultiplied`. -/
structure Color32 where
  cr : Nat
  cg : Nat
  cb : Nat
  ca : Nat
deriving DecidableEq, Repr

/-- Model of `egui::Color32::from_rgba_unmultiplied`.  Treated as an opaque
constructor: no claim inspects the premultiplied representation egui stores
internally. -/
def Color32.fromRgbaUnmultiplied (r g b a : Byte) : Color32 :=
  ⟨r.val, g.val, b.val, a.val⟩

/-- Model of `egui::Stroke`. -/
structure Stroke where
  width : F32
  color : Color32
deriving DecidableEq, Repr

/-- Model of `egui::CornerRadius` (one `u8` per corner). -/
structure CornerRadius where
  nw : Byte
  ne : Byte
  sw : Byte
  se : Byte
deriving DecidableEq, Repr

/-- Model of `egui::CornerRadius::same`. -/
def CornerRadius.same (r : Byte) : CornerRadius :=
  ⟨r, r, r, r⟩

/-- Model of `egui::epaint::Shadow`. -/
structure Shadow where
  offset_x : Int
  offset_y : Int
  blur : Byte
  spread : Byte
  color : Color32
deriving DecidableEq, Repr

/-- Model of `egui::style::Selection`. -/
structure Selection where
  bg_fill : Color32
  stroke : Stroke
deriving DecidableEq, Repr

/-- Model of `egui::style::WidgetVisuals`. -/
structure WidgetVisuals where
  bg_fill : Color32
  weak_bg_fill : Color32
  bg_stroke : Stroke
  corner_radius : CornerRadius
  fg_stroke : Stroke
  expansion : F32
deriving DecidableEq, Repr

/-- Model of `egui::style::Widgets` (the five interaction-state groups; the
`open` group is written with guillemets because `open` is a Lean keyword). -/
structure Widgets where
  noninteractive : WidgetVisuals
  inactive : WidgetVisuals
  hovered : WidgetVisuals
  active : WidgetVisuals
  «open» : WidgetVisuals
deriving DecidableEq, Repr

/-- Model of `egui::style::TextCursorStyle` (only the stroke is touched by the
repository). -/
structure TextCursorStyle where
  stroke : Stroke
  preview : Bool
deriving DecidableEq, Repr

/-- Model of `egui::Visuals`, restricted to the fields the repository reads or
writes (every field assigned by `ThemeConfig::to_visuals`, plus `dark_mode`).
-/
structure Visuals where
  dark_mode : Bool
  override_text_color : Option Color32
  weak_text_color : Option Color32
  hyperlink_color : Color32
  faint_bg_color : Color32
  extreme_bg_color : Color32
  code_bg_color : Color32
  warn_fg_color : Color32
  error_fg_color : Color32
  window_fill : Color32
  window_stroke : Stroke
  window_corner_radius : CornerRadius
  window_shadow : Shadow
  panel_fill : Color32
  popup_shadow : Shadow
  selection : Selection
  widgets : Widgets
  resize_corner_size : F32
  text_cursor : TextCursorStyle
  clip_rect_margin : F32
  button_frame : Bool
  collapsing_header_frame : Bool
  indent_has_left_vline : Bool
  striped : Bool
  slider_trailing_fill : Bool
deriving DecidableEq, Repr

/-- The persisted theme entity, translated field for field from `ThemeConfig`
in `src/config.rs` (lines 3-84). -/
structure ThemeConfig where
  name : String
  dark_mode : Bool
  override_text_color : Option Rgba
  override_weak_text_color : Option Rgba
  override_hyperlink_color : Option Rgba
  override_faint_bg_color : Option Rgba
  override_extreme_bg_color : Option Rgba
  override_code_bg_color : Option Rgba
  override_warn_fg_color : Option Rgba
  override_error_fg_color : Option Rgba
  override_window_fill : Option Rgba
  override_window_stroke_color : Option Rgba
  override_window_stroke_width : Option F32
  override_window_corner_radius : Option Byte
  override_window_shadow_size : Option Byte
  override_panel_fill : Option Rgba
  override_popup_shadow_size : Option Byte
  override_selection_bg : Option Rgba
  override_selection_stroke_color : Option Rgba
  override_selection_stroke_width : Option F32
  override_widget_noninteractive_bg_fill : Option Rgba
  override_widget_noninteractive_weak_bg_fill : Option Rgba
  override_widget_noninteractive_bg_stroke_color : Option Rgba
  override_widget_noninteractive_bg_stroke_width : Option F32
  override_widget_noninteractive_corner_radius : Option Byte
  override_widget_noninteractive_fg_stroke_color : Option Rgba
  override_widget_noninteractive_fg_stroke_width : Option F32
  override_widget_noninteractive_expansion : Option F32
  override_widget_inactive_bg_fill : Option Rgba
  override_widget_inactive_weak_bg_fill : Option Rgba
  override_widget_inactive_bg_stroke_color : Option Rgba
  override_widget_inactive_bg_stroke_width : Option F32
  override_widget_inactive_corner_radius : Option Byte
  override_widget_inactive_fg_stroke_color : Option Rgba
  override_widget_inactive_fg_stroke_width : Option F32
  override_widget_inactive_expansion : Option F32
  override_widget_hovered_bg_fill : Option Rgba
  override_widget_hovered_weak_bg_fill : Option Rgba
  override_widget_hovered_bg_stroke_color : Option Rgba
  override_widget_hovered_bg_stroke_width : Option F32
  override_widget_hovered_corner_radius : Option Byte
  override_widget_hovered_fg_stroke_color : Option Rgba
  override_widget_hovered_fg_stroke_width : Option F32
  override_widget_hovered_expansion : Option F32
  override_widget_active_bg_fill : Option Rgba
  override_widget_active_weak_bg_fill : Option Rgba
  override_widget_active_bg_stroke_color : Option Rgba
  override_widget_active_bg_stroke_width : Option F32
  override_widget_active_corner_radius : Option Byte
  override_widget_active_fg_stroke_color : Option Rgba
  override_widget_active_fg_stroke_width : Option F32
  override_widget_active_expansion : Option F32
  override_widget_open_bg_fill : Option Rgba
  override_widget_open_weak_bg_fill : Option Rgba
  override_widget_open_bg_stroke_color : Option Rgba
  override_widget_open_bg_stroke_width : Option F32
  override_widget_open_corner_radius : Option Byte
  override_widget_open_fg_stroke_color : Option Rgba
  override_widget_open_fg_stroke_width : Option F32
  override_widget_open_expansion : Option F32
  override_resize_corner_size : Option F32
  override_text_cursor_width : Option F32
  override_clip_rect_margin : Option F32
  override_button_frame : Option Bool
  override_collapsing_header_frame : Option Bool
  override_indent_has_left_vline : Option Bool
  override_striped : Option Bool
  override_slider_trailing_fill : Option Bool
deriving DecidableEq, Repr

/-- Translation of `impl Default for ThemeConfig` (`src/config.rs` lines 86-159):
name `"Dark"`, dark mode on, every override `None`. -/
def ThemeConfig.default : ThemeConfig where
  name := "Dark"
  dark_mode := true
  override_text_color := none
  override_weak_text_color := none
  override_hyperlink_color := none
  override_faint_bg_color := none
  override_extreme_bg_color := none
  override_code_bg_color := none
  override_warn_fg_color := none
  override_error_fg_color := none
  override_window_fill := none
  override_window_stroke_color := none
  override_window_stroke_width := none
  override_window_corner_radius := none
  override_window_shadow_size := none
  override_panel_fill := none
  override_popup_shadow_size := none
  override_selection_bg := none
  override_selection_stroke_color := none
  override_selection_stroke_width := none
  override_widget_noninteractive_bg_fill := none
  override_widget_noninteractive_weak_bg_fill := none
  override_widget_noninteractive_bg_stroke_color := none
  override_widget_noninteractive_bg_stroke_width := none
  override_widget_noninteractive_corner_radius := none
  override_widget_noninteractive_fg_stroke_color := none
  override_widget_noninteractive_fg_stroke_width := none
  override_widget_noninteractive_expansion := none
  override_widget_inactive_bg_fill := none
  override_widget_inactive_weak_bg_fill := none
  override_widget_inactive_bg_stroke_color := none
  override_widget_inactive_bg_stroke_width := none
  override_widget_inactive_corner_radius := none
  override_widget_inactive_fg_stroke_color := none
  override_widget_inactive_fg_stroke_width := none
  override_widget_inactive_expansion := none
  override_widget_hovered_bg_fill := none
  override_widget_hovered_weak_bg_fill := none
  override_widget_hovered_bg_stroke_color := none
  override_widget_hovered_bg_stroke_width := none
  override_widget_hovered_corner_radius := none
  override_widget_hovered_fg_stroke_color := none
  override_widget_hovered_fg_stroke_width := none
  override_widget_hovered_expansion := none
  override_widget_active_bg_fill := none
  override_widget_active_weak_bg_fill := none
  override_widget_active_bg_stroke_color := none
  override_widget_active_bg_stroke_width := none
  override_widget_active_corner_radius := none
  override_widget_active_fg_stroke_color := none
  override_widget_active_fg_stroke_width := none
  override_widget_active_expansion := none
  override_widget_open_bg_fill := none
  override_widget_open_weak_bg_fill := none
  override_widget_open_bg_stroke_color := none
  override_widget_open_bg_stroke_width := none
  override_widget_open_corner_radius := none
  override_widget_open_fg_stroke_color := none
  override_widget_open_fg_stroke_width := none
  override_widget_open_expansion := none
  override_resize_corner_size := none
  override_text_cursor_width := none
  override_clip_rect_margin := none
  override_button_frame := none
  override_collapsing_header_frame := none
  override_indent_has_left_vline := none
  override_striped := none
  override_slider_trailing_fill := none

/-- Translation of `ThemeConfig::dark_preset` from `src/config.rs`. -/
def ThemeConfig.dark_preset : ThemeConfig :=
  { ThemeConfig.default with
    name := "Dark",
    dark_mode := true }

/-- Translation of `ThemeConfig::light_preset` from `src/config.rs`. -/
def ThemeConfig.light_preset : ThemeConfig :=
  { ThemeConfig.default with
    name := "Light",
    dark_mode := false }

/-- Translation of `ThemeConfig::dracula_preset` from `src/config.rs`. -/
def ThemeConfig.dracula_preset : ThemeConfig :=
  { ThemeConfig.default with
    name := "Dracula",
    dark_mode := true,
    override_text_color := some ⟨248, 248, 242, 255⟩,
    override_window_fill := some ⟨40, 42, 54, 255⟩,
    override_panel_fill := some ⟨68, 71, 90, 255⟩,
    override_selection_bg := some ⟨98, 114, 164, 255⟩,
    override_hyperlink_color := some ⟨139, 233, 253, 255⟩,
    override_faint_bg_color := some ⟨68, 71, 90, 255⟩,
    override_extreme_bg_color := some ⟨21, 22, 30, 255⟩,
    override_code_bg_color := some ⟨68, 71, 90, 255⟩,
    override_warn_fg_color := some ⟨241, 250, 140, 255⟩,
    override_error_fg_color := some ⟨255, 85, 85, 255⟩ }

/-- Translation of `ThemeConfig::nord_preset` from `src/config.rs`. -/
def ThemeConfig.nord_preset : ThemeConfig :=
  { ThemeConfig.default with
    name := "Nord",
    dark_mode := true,
    override_text_color := some ⟨216, 222, 233, 255⟩,
    override_window_fill := some ⟨46, 52, 64, 255⟩,
    override_panel_fill := some ⟨59, 66, 82, 255⟩,
    override_selection_bg := some ⟨136, 192, 208, 255⟩,
    override_hyperlink_color := some ⟨136, 192, 208, 255⟩,
    override_faint_bg_color := some ⟨59, 66, 82, 255⟩,
    override_extreme_bg_color := some ⟨29, 33, 42, 255⟩,
    override_code_bg_color := some ⟨59, 66, 82, 255⟩,
    override_warn_fg_color := some ⟨235, 203, 139, 255⟩,
    override_error_fg_color := some ⟨191, 97, 106, 255⟩ }

/-- Translation of `ThemeConfig::gruvbox_dark_preset` from `src/config.rs`. -/
def ThemeConfig.gruvbox_dark_preset : ThemeConfig :=
  { ThemeConfig.default with
    name := "Gruvbox Dark",
    dark_mode := true,
    override_text_color := some ⟨235, 219, 178, 255⟩,
    override_window_fill := some ⟨40, 40, 40, 255⟩,
    override_panel_fill := some ⟨60, 56, 54, 255⟩,
    override_selection_bg := some ⟨102, 92, 84, 255⟩,
    override_hyperlink_color := some ⟨131, 165, 152, 255⟩,
    override_faint_bg_color := some ⟨60, 56, 54, 255⟩,
    override_extreme_bg_color := some ⟨29, 32, 33, 255⟩,
    override_code_bg_color := some ⟨60, 56, 54, 255⟩,
    override_warn_fg_color := some ⟨250, 189, 47, 255⟩,
    override_error_fg_color := some ⟨251, 73, 52, 255⟩ }

/-- Translation of `ThemeConfig::solarized_dark_preset` from `src/config.rs`. -/
def ThemeConfig.solarized_dark_preset : ThemeConfig :=
  { ThemeConfig.default with
    name := "Solarized Dark",
    dark_mode := true,
    override_text_color := some ⟨131, 148, 150, 255⟩,
    override_window_fill := some ⟨0, 43, 54, 255⟩,
    override_panel_fill := some ⟨7, 54, 66, 255⟩,
    override_selection_bg := some ⟨88, 110, 117, 255⟩,
    override_hyperlink_color := some ⟨42, 161, 152, 255⟩,
    override_faint_bg_color := some ⟨7, 54, 66, 255⟩,
    override_extreme_bg_color := some ⟨0, 30, 38, 255⟩,
    override_code_bg_color := some ⟨7, 54, 66, 255⟩,
    override_warn_fg_color := some ⟨181, 137, 0, 255⟩,
    override_error_fg_color := some ⟨220, 50, 47, 255⟩ }

/-- Translation of `ThemeConfig::solarized_light_preset` from `src/config.rs`. -/
def ThemeConfig.solarized_light_preset : ThemeConfig :=
  { ThemeConfig.default with
    name := "Solarized Light",
    dark_mode := false,
    override_text_color := some ⟨101, 123, 131, 255⟩,
    override_window_fill := some ⟨253, 246, 227, 255⟩,
    override_panel_fill := some ⟨238, 232, 213, 255⟩,
    override_selection_bg := some ⟨147, 161, 161, 255⟩,
    override_hyperlink_color := some ⟨38, 139, 210, 255⟩,
    override_faint_bg_color := some ⟨238, 232, 213, 255⟩,
    override_extreme_bg_color := some ⟨253, 246, 227, 255⟩,
    override_code_bg_color := some ⟨238, 232, 213, 255⟩,
    override_warn_fg_color := some ⟨181, 137, 0, 255⟩,
    override_error_fg_color := some ⟨220, 50, 47, 255⟩ }

/-- Translation of `ThemeConfig::monokai_preset` from `src/config.rs`. -/
def ThemeConfig.monokai_preset : ThemeConfig :=
  { ThemeConfig.default with
    name := "Monokai",
    dark_mode := true,
    override_text_color := some ⟨248, 248, 242, 255⟩,
    override_window_fill := some ⟨39, 40, 34, 255⟩,
    override_panel_fill := some ⟨73, 72, 62, 255⟩,
    override_selection_bg := some ⟨73, 72, 62, 255⟩,
    override_hyperlink_color := some ⟨102, 217, 239, 255⟩,
    override_faint_bg_color := some ⟨73, 72, 62, 255⟩,
    override_extreme_bg_color := some ⟨30, 31, 25, 255⟩,
    override_code_bg_color := some ⟨73, 72, 62, 255⟩,
    override_warn_fg_color := some ⟨230, 219, 116, 255⟩,
    override_error_fg_color := some ⟨249, 38, 114, 255⟩ }

/-- Translation of `ThemeConfig::one_dark_preset` from `src/config.rs`. -/
def ThemeConfig.one_dark_preset : ThemeConfig :=
  { ThemeConfig.default with
    name := "One Dark",
    dark_mode := true,
    override_text_color := some ⟨171, 178, 191, 255⟩,
    override_window_fill := some ⟨40, 44, 52, 255⟩,
    override_panel_fill := some ⟨33, 37, 43, 255⟩,
    override_selection_bg := some ⟨61, 66, 77, 255⟩,
    override_hyperlink_color := some ⟨97, 175, 239, 255⟩,
    override_faint_bg_color := some ⟨33, 37, 43, 255⟩,
    override_extreme_bg_color := some ⟨21, 23, 27, 255⟩,
    override_code_bg_color := some ⟨33, 37, 43, 255⟩,
    override_warn_fg_color := some ⟨229, 192, 123, 255⟩,
    override_error_fg_color := some ⟨224, 108, 117, 255⟩ }

/-- Translation of `ThemeConfig::tokyo_night_preset` from `src/config.rs`. -/
def ThemeConfig.tokyo_night_preset : ThemeConfig :=
  { ThemeConfig.default with
    name := "Tokyo Night",
    dark_mode := true,
    override_text_color := some ⟨192, 202, 245, 255⟩,
    override_window_fill := some ⟨26, 27, 38, 255⟩,
    override_panel_fill := some ⟨36, 40, 59, 255⟩,
    override_selection_bg := some ⟨56, 62, 90, 255⟩,
    override_hyperlink_color := some ⟨122, 162, 247, 255⟩,
    override_faint_bg_color := some ⟨36, 40, 59, 255⟩,
    override_extreme_bg_color := some ⟨16, 17, 28, 255⟩,
    override_code_bg_color := some ⟨36, 40, 59, 255⟩,
    override_warn_fg_color := some ⟨224, 175, 104, 255⟩,
    override_error_fg_color := some ⟨247, 118, 142, 255⟩ }

/-- Translation of `ThemeConfig::catppuccin_mocha_preset` from `src/config.rs`. -/
def ThemeConfig.catppuccin_mocha_preset : ThemeConfig :=
  { ThemeConfig.default with
    name := "Catppuccin Mocha",
    dark_mode := true,
    override_text_color := some ⟨205, 214, 244, 255⟩,
    override_window_fill := some ⟨30, 30, 46, 255⟩,
    override_panel_fill := some ⟨49, 50, 68, 255⟩,
    override_selection_bg := some ⟨88, 91, 112, 255⟩,
    override_hyperlink_color := some ⟨137, 180, 250, 255⟩,
    override_faint_bg_color := some ⟨49, 50, 68, 255⟩,
    override_extreme_bg_color := some ⟨17, 17, 27, 255⟩,
    override_code_bg_color := some ⟨49, 50, 68, 255⟩,
    override_warn_fg_color := some ⟨249, 226, 175, 255⟩,
    override_error_fg_color := some ⟨243, 139, 168, 255⟩ }

/-- Translation of `ThemeConfig::all_presets` (`src/config.rs` lines 340-354). -/
def ThemeConfig.all_presets : List ThemeConfig :=
  [ThemeConfig.dark_preset, ThemeConfig.light_preset, ThemeConfig.dracula_preset,
   ThemeConfig.nord_preset, ThemeConfig.gruvbox_dark_preset,
   ThemeConfig.solarized_dark_preset, ThemeConfig.solarized_light_preset,
   ThemeConfig.monokai_preset, ThemeConfig.one_dark_preset,
   ThemeConfig.tokyo_night_preset, ThemeConfig.catppuccin_mocha_preset]

/-- The per-interaction-state block of `ThemeConfig::to_visuals`: the eight
`if let Some(..)` assignments repeated for each of the five
`visuals.widgets.*` groups in `src/config.rs` lines 450-628. -/
def mergeWidget (w : WidgetVisuals) (bg weak bgsc : Option Rgba)
    (bgsw : Option F32) (cr : Option Byte) (fgsc : Option Rgba)
    (fgsw : Option F32) (ex : Option F32) : WidgetVisuals where
  bg_fill :=
    match bg with
    | some col => Color32.fromRgbaUnmultiplied col.r col.g col.b col.a
    | none => w.bg_fill
  weak_bg_fill :=
    match weak with
    | some col => Color32.fromRgbaUnmultiplied col.r col.g col.b col.a
    | none => w.weak_bg_fill
  bg_stroke :=
    { width :=
        match bgsw with
        | some wd => wd
        | none => w.bg_stroke.width,
      color :=
        match bgsc with
        | some col => Color32.fromRgbaUnmultiplied col.r col.g col.b col.a
        | none => w.bg_stroke.color }
  corner_radius :=
    match cr with
    | some r => CornerRadius.same r
    | none => w.corner_radius
  fg_stroke :=
    { width :=
        match fgsw with
        | some wd => wd
        | none => w.fg_stroke.width,
      color :=
        match fgsc with
        | some col => Color32.fromRgbaUnmultiplied col.r col.g col.b col.a
        | none => w.fg_stroke.color }
  expansion :=
    match ex with
    | some e => e
    | none => w.expansion

/-- Translation of `ThemeConfig::to_visuals` (`src/config.rs` lines 356-663).
The Rust function starts from `Visuals::dark()` or `Visuals::light()` -- two
constant records owned by the external egui crate, passed here as the
`darkBase` / `lightBase` parameters -- and performs one `if let Some(..)`
field assignment per override; every assignment targets a distinct field and
none reads a field written by another, so the sequential mutations are
rendered as one simultaneous record update. -/
def ThemeConfig.to_visuals (c : ThemeConfig) (darkBase lightBase : Visuals) : Visuals :=
  let v := if c.dark_mode then darkBase else lightBase
  { v with
    override_text_color :=
      match c.override_text_color with
      | some col => some (Color32.fromRgbaUnmultiplied col.r col.g col.b col.a)
      | none => v.override_text_color,
    weak_text_color :=
      match c.override_weak_text_color with
      | some col => some (Color32.fromRgbaUnmultiplied col.r col.g col.b col.a)
      | none => v.weak_text_color,
    hyperlink_color :=
      match c.override_hyperlink_color with
      | some col => Color32.fromRgbaUnmultiplied col.r col.g col.b col.a
      | none => v.hyperlink_color,
    faint_bg_color :=
      match c.override_faint_bg_color with
      | some col => Color32.fromRgbaUnmultiplied col.r col.g col.b col.a
      | none => v.faint_bg_color,
    extreme_bg_color :=
      match c.override_extreme_bg_color with
      | some col => Color32.fromRgbaUnmultiplied col.r col.g col.b col.a
      | none => v.extreme_bg_color,
    code_bg_color :=
      match c.override_code_bg_color with
      | some col => Color32.fromRgbaUnmultiplied col.r col.g col.b col.a
      | none => v.code_bg_color,
    warn_fg_color :=
      match c.override_warn_fg_color with
      | some col => Color32.fromRgbaUnmultiplied col.r col.g col.b col.a
      | none => v.warn_fg_color,
    error_fg_color :=
      match c.override_error_fg_color with
      | some col => Color32.fromRgbaUnmultiplied col.r col.g col.b col.a
      | none => v.error_fg_color,
    window_fill :=
      match c.override_window_fill with
      | some col => Color32.fromRgbaUnmultiplied col.r col.g col.b col.a
      | none => v.window_fill,
    window_stroke :=
      { width :=
          match c.override_window_stroke_width with
          | some w => w
          | none => v.window_stroke.width,
        color :=
          match c.override_window_stroke_color with
          | some col => Color32.fromRgbaUnmultiplied col.r col.g col.b col.a
          | none => v.window_stroke.color },
    window_corner_radius :=
      match c.override_window_corner_radius with
      | some r => CornerRadius.same r
      | none => v.window_corner_radius,
    window_shadow :=
      { v.window_shadow with
        spread :=
          match c.override_window_shadow_size with
          | some s => s
          | none => v.window_shadow.spread },
    panel_fill :=
      match c.override_panel_fill with
      | some col => Color32.fromRgbaUnmultiplied col.r col.g col.b col.a
      | none => v.panel_fill,
    popup_shadow :=
      { v.popup_shadow with
        spread :=
          match c.override_popup_shadow_size with
          | some s => s
          | none => v.popup_shadow.spread },
    selection :=
      { bg_fill :=
          match c.override_selection_bg with
          | some col => Color32.fromRgbaUnmultiplied col.r col.g col.b col.a
          | none => v.selection.bg_fill,
        stroke :=
          { width :=
              match c.override_selection_stroke_width with
              | some w => w
              | none => v.selection.stroke.width,
            color :=
              match c.override_selection_stroke_color with
              | some col => Color32.fromRgbaUnmultiplied col.r col.g col.b col.a
              | none => v.selection.stroke.color } },
    widgets :=
      { noninteractive :=
          mergeWidget v.widgets.noninteractive
            c.override_widget_noninteractive_bg_fill
            c.override_widget_noninteractive_weak_bg_fill
            c.override_widget_noninteractive_bg_stroke_color
            c.override_widget_noninteractive_bg_stroke_width
            c.override_widget_noninteractive_corner_radius
            c.override_widget_noninteractive_fg_stroke_color
            c.override_widget_noninteractive_fg_stroke_width
            c.override_widget_noninteractive_expansion,
        inactive :=
          mergeWidget v.widgets.inactive
            c.override_widget_inactive_bg_fill
            c.override_widget_inactive_weak_bg_fill
            c.override_widget_inactive_bg_stroke_color
            c.override_widget_inactive_bg_stroke_width
            c.override_widget_inactive_corner_radius
            c.override_widget_inactive_fg_stroke_color
            c.override_widget_inactive_fg_stroke_width
            c.override_widget_inactive_expansion,
        hovered :=
          mergeWidget v.widgets.hovered
            c.override_widget_hovered_bg_fill
            c.override_widget_hovered_weak_bg_fill
            c.override_widget_hovered_bg_stroke_color
            c.override_widget_hovered_bg_stroke_width
            c.override_widget_hovered_corner_radius
            c.override_widget_hovered_fg_stroke_color
            c.override_widget_hovered_fg_stroke_width
            c.override_widget_hovered_expansion,
        active :=
          mergeWidget v.widgets.active
            c.override_widget_active_bg_fill
            c.override_widget_active_weak_bg_fill
            c.override_widget_active_bg_stroke_color
            c.override_widget_active_bg_stroke_width
            c.override_widget_active_corner_radius
            c.override_widget_active_fg_stroke_color
            c.override_widget_active_fg_stroke_width
            c.override_widget_active_expansion,
        «open» :=
          mergeWidget v.widgets.«open»
            c.override_widget_open_bg_fill
            c.override_widget_open_weak_bg_fill
            c.override_widget_open_bg_stroke_color
            c.override_widget_open_bg_stroke_width
            c.override_widget_open_corner_radius
            c.override_widget_open_fg_stroke_color
            c.override_widget_open_fg_stroke_width
            c.override_widget_open_expansion },
    resize_corner_size :=
      match c.override_resize_corner_size with
      | some s => s
      | none => v.resize_corner_size,
    text_cursor :=
      { v.text_cursor with
        stroke :=
          { v.text_cursor.stroke with
            width :=
              match c.override_text_cursor_width with
              | some w => w
              | none => v.text_cursor.stroke.width } },
    clip_rect_margin :=
      match c.override_clip_rect_margin with
      | some m => m
      | none => v.clip_rect_margin,
    button_frame :=
      match c.override_button_frame with
      | some b => b
      | none => v.button_frame,
    collapsing_header_frame :=
      match c.override_collapsing_header_frame with
      | some b => b
      | none => v.collapsing_header_frame,
    indent_has_left_vline :=
      match c.override_indent_has_left_vline with
      | some b => b
      | none => v.indent_has_left_vline,
    striped :=
      match c.override_striped with
      | some b => b
      | none => v.striped,
    slider_trailing_fill :=
      match c.override_slider_trailing_fill with
      | some b => b
      | none => v.slider_trailing_fill }

/-- Decidable test that every one of the 66 override fields is `None`
(the "no key set" premise of the inheritance law). -/
def ThemeConfig.hasNoOverrides (c : ThemeConfig) : Bool :=
  c.override_text_color.isNone &&
    c.override_weak_text_color.isNone &&
    c.override_hyperlink_color.isNone &&
    c.override_faint_bg_color.isNone &&
    c.override_extreme_bg_color.isNone &&
    c.override_code_bg_color.isNone &&
    c.override_warn_fg_color.isNone &&
    c.override_error_fg_color.isNone &&
    c.override_window_fill.isNone &&
    c.override_window_stroke_color.isNone &&
    c.override_window_stroke_width.isNone &&
    c.override_window_corner_radius.isNone &&
    c.override_window_shadow_size.isNone &&
    c.override_panel_fill.isNone &&
    c.override_popup_shadow_size.isNone &&
    c.override_selection_bg.isNone &&
    c.override_selection_stroke_color.isNone &&
    c.override_selection_stroke_width.isNone &&
    c.override_widget_noninteractive_bg_fill.isNone &&
    c.override_widget_noninteractive_weak_bg_fill.isNone &&
    c.override_widget_noninteractive_bg_stroke_color.isNone &&
    c.override_widget_noninteractive_bg_stroke_width.isNone &&
    c.override_widget_noninteractive_corner_radius.isNone &&
    c.override_widget_noninteractive_fg_stroke_color.isNone &&
    c.override_widget_noninteractive_fg_stroke_width.isNone &&
    c.override_widget_noninteractive_expansion.isNone &&
    c.override_widget_inactive_bg_fill.isNone &&
    c.override_widget_inactive_weak_bg_fill.isNone &&
    c.override_widget_inactive_bg_stroke_color.isNone &&
    c.override_widget_inactive_bg_stroke_width.isNone &&
    c.override_widget_inactive_corner_radius.isNone &&
    c.override_widget_inactive_fg_stroke_color.isNone &&
    c.override_widget_inactive_fg_stroke_width.isNone &&
    c.override_widget_inactive_expansion.isNone &&
    c.override_widget_hovered_bg_fill.isNone &&
    c.override_widget_hovered_weak_bg_fill.isNone &&
    c.override_widget_hovered_bg_stroke_color.isNone &&
    c.override_widget_hovered_bg_stroke_width.isNone &&
    c.override_widget_hovered_corner_radius.isNone &&
    c.override_widget_hovered_fg_stroke_color.isNone &&
    c.override_widget_hovered_fg_stroke_width.isNone &&
    c.override_widget_hovered_expansion.isNone &&
    c.override_widget_active_bg_fill.isNone &&
    c.override_widget_active_weak_bg_fill.isNone &&
    c.override_widget_active_bg_stroke_color.isNone &&
    c.override_widget_active_bg_stroke_width.isNone &&
    c.override_widget_active_corner_radius.isNone &&
    c.override_widget_active_fg_stroke_color.isNone &&
    c.override_widget_active_fg_stroke_width.isNone &&
    c.override_widget_active_expansion.isNone &&
    c.override_widget_open_bg_fill.isNone &&
    c.override_widget_open_weak_bg_fill.isNone &&
    c.override_widget_open_bg_stroke_color.isNone &&
    c.override_widget_open_bg_stroke_width.isNone &&
    c.override_widget_open_corner_radius.isNone &&
    c.override_widget_open_fg_stroke_color.isNone &&
    c.override_widget_open_fg_stroke_width.isNone &&
    c.override_widget_open_expansion.isNone &&
    c.override_resize_corner_size.isNone &&
    c.override_text_cursor_width.isNone &&
    c.override_clip_rect_margin.isNone &&
    c.override_button_frame.isNone &&
    c.override_collapsing_header_frame.isNone &&
    c.override_indent_has_left_vline.isNone &&
    c.override_striped.isNone &&
    c.override_slider_trailing_fill.isNone


/-- Concrete stand-in for the external `egui::Visuals::dark()` constant, used
only to instantiate base-parametric theorems in witnesses; none of the claims
depends on the exact channel values of the egui baselines. -/
def sampleDarkVisuals : Visuals where
  dark_mode := true
  override_text_color := none
  weak_text_color := none
  hyperlink_color := ⟨0, 0, 255, 255⟩
  faint_bg_color := ⟨20, 20, 20, 255⟩
  extreme_bg_color := ⟨10, 10, 10, 255⟩
  code_bg_color := ⟨30, 30, 30, 255⟩
  warn_fg_color := ⟨200, 150, 0, 255⟩
  error_fg_color := ⟨200, 0, 0, 255⟩
  window_fill := ⟨25, 25, 25, 255⟩
  window_stroke := { width := 7, color := ⟨60, 60, 60, 255⟩ }
  window_corner_radius := ⟨6, 6, 6, 6⟩
  window_shadow := { offset_x := 1, offset_y := 2, blur := 3, spread := 4, color := ⟨0, 0, 0, 96⟩ }
  panel_fill := ⟨27, 27, 27, 255⟩
  popup_shadow := { offset_x := 0, offset_y := 0, blur := 2, spread := 1, color := ⟨0, 0, 0, 64⟩ }
  selection := { bg_fill := ⟨0, 80, 120, 255⟩, stroke := { width := 2, color := ⟨90, 170, 255, 255⟩ } }
  widgets :=
    { noninteractive :=
        { bg_fill := ⟨5, 6, 7, 255⟩, weak_bg_fill := ⟨9, 10, 11, 255⟩,
          bg_stroke := { width := 1, color := ⟨70, 70, 70, 255⟩ },
          corner_radius := ⟨2, 2, 2, 2⟩,
          fg_stroke := { width := 1, color := ⟨140, 140, 140, 255⟩ }, expansion := 0 },
      inactive :=
        { bg_fill := ⟨15, 16, 17, 255⟩, weak_bg_fill := ⟨19, 20, 21, 255⟩,
          bg_stroke := { width := 1, color := ⟨72, 72, 72, 255⟩ },
          corner_radius := ⟨2, 2, 2, 2⟩,
          fg_stroke := { width := 1, color := ⟨180, 180, 180, 255⟩ }, expansion := 0 },
      hovered :=
        { bg_fill := ⟨25, 26, 27, 255⟩, weak_bg_fill := ⟨29, 30, 31, 255⟩,
          bg_stroke := { width := 1, color := ⟨150, 150, 150, 255⟩ },
          corner_radius := ⟨3, 3, 3, 3⟩,
          fg_stroke := { width := 2, color := ⟨240, 240, 240, 255⟩ }, expansion := 1 },
      active :=
        { bg_fill := ⟨35, 36, 37, 255⟩, weak_bg_fill := ⟨39, 40, 41, 255⟩,
          bg_stroke := { width := 1, color := ⟨255, 255, 255, 255⟩ },
          corner_radius := ⟨2, 2, 2, 2⟩,
          fg_stroke := { width := 2, color := ⟨255, 255, 255, 255⟩ }, expansion := 1 },
      «open» :=
        { bg_fill := ⟨45, 46, 47, 255⟩, weak_bg_fill := ⟨49, 50, 51, 255⟩,
          bg_stroke := { width := 1, color := ⟨62, 62, 62, 255⟩ },
          corner_radius := ⟨2, 2, 2, 2⟩,
          fg_stroke := { width := 1, color := ⟨210, 210, 210, 255⟩ }, expansion := 0 } }
  resize_corner_size := 12
  text_cursor := { stroke := { width := 2, color := ⟨192, 222, 255, 255⟩ }, preview := false }
  clip_rect_margin := 3
  button_frame := true
  collapsing_header_frame := true
  indent_has_left_vline := true
  striped := false
  slider_trailing_fill := true

/-- Concrete stand-in for the external `egui::Visuals::light()` constant (a
second record, distinct from `sampleDarkVisuals`, for witnesses). -/
def sampleLightVisuals : Visuals :=
  { sampleDarkVisuals with
    dark_mode := false,
    window_fill := ⟨240, 240, 240, 255⟩,
    panel_fill := ⟨248, 248, 248, 255⟩,
    faint_bg_color := ⟨230, 230, 230, 255⟩,
    hyperlink_color := ⟨0, 90, 200, 255⟩ }

/-- Claim C2 (inheritance / merge identity): when every override field is
`None`, `to_visuals` returns exactly the base visuals record selected by
`dark_mode`, field for field. -/
theorem claim2_merge_identity (c : ThemeConfig) (darkBase lightBase : Visuals)
    (h : c.hasNoOverrides = true) :
    c.to_visuals darkBase lightBase = if c.dark_mode then darkBase else lightBase := by
  simp only [ThemeConfig.hasNoOverrides, Bool.and_eq_true, Option.isNone_iff_eq_none] at h
  obtain ⟨⟨⟨⟨⟨⟨⟨⟨⟨⟨⟨⟨⟨⟨⟨⟨⟨⟨⟨⟨⟨⟨⟨⟨⟨⟨⟨⟨⟨⟨⟨⟨⟨⟨⟨⟨⟨⟨⟨⟨⟨⟨⟨⟨⟨⟨⟨⟨⟨⟨⟨⟨⟨⟨⟨⟨⟨⟨⟨⟨⟨⟨⟨⟨⟨h1, h2⟩, h3⟩, h4⟩, h5⟩, h6⟩, h7⟩, h8⟩, h9⟩, h10⟩, h11⟩, h12⟩, h13⟩, h14⟩, h15⟩, h16⟩, h17⟩, h18⟩, h19⟩, h20⟩, h21⟩, h22⟩, h23⟩, h24⟩, h25⟩, h26⟩, h27⟩, h28⟩, h29⟩, h30⟩, h31⟩, h32⟩, h33⟩, h34⟩, h35⟩, h36⟩, h37⟩, h38⟩, h39⟩, h40⟩, h41⟩, h42⟩, h43⟩, h44⟩, h45⟩, h46⟩, h47⟩, h48⟩, h49⟩, h50⟩, h51⟩, h52⟩, h53⟩, h54⟩, h55⟩, h56⟩, h57⟩, h58⟩, h59⟩, h60⟩, h61⟩, h62⟩, h63⟩, h64⟩, h65⟩, h66⟩ := h
  simp only [ThemeConfig.to_visuals, mergeWidget, h1, h2, h3, h4, h5, h6, h7, h8, h9, h10, h11, h12, h13, h14, h15, h16, h17, h18, h19, h20, h21, h22, h23, h24, h25, h26, h27, h28, h29, h30, h31, h32, h33, h34, h35, h36, h37, h38, h39, h40, h41, h42, h43, h44, h45, h46, h47, h48, h49, h50, h51, h52, h53, h54, h55, h56, h57, h58, h59, h60, h61, h62, h63, h64, h65, h66]

/-- Witness for C2: `dark_preset` has no overrides, and its merged visuals are
exactly the dark base record. -/
theorem claim2_merge_identity_witness :
    ThemeConfig.dark_preset.hasNoOverrides = true ∧
    ThemeConfig.dark_preset.to_visuals sampleDarkVisuals sampleLightVisuals
      = if ThemeConfig.dark_preset.dark_mode then sampleDarkVisuals else sampleLightVisuals :=
  ⟨by decide,
   claim2_merge_identity ThemeConfig.dark_preset sampleDarkVisuals sampleLightVisuals (by decide)⟩
set_option maxHeartbeats 3200000 in
/-- Claim C3 (override precedence): for every configuration, every override
field and every stored value, a `Some` override forces the corresponding
field of the merged `Visuals` to the decoded value, regardless of the base
record's value for that field.  One conjunct per override field, in the
declaration order of `ThemeConfig`. -/
theorem claim3_override_precedence (c : ThemeConfig) (darkBase lightBase : Visuals) :
    (∀ x, c.override_text_color = some x →
      (c.to_visuals darkBase lightBase).override_text_color = some (Color32.fromRgbaUnmultiplied x.r x.g x.b x.a)) ∧
    (∀ x, c.override_weak_text_color = some x →
      (c.to_visuals darkBase lightBase).weak_text_color = some (Color32.fromRgbaUnmultiplied x.r x.g x.b x.a)) ∧
    (∀ x, c.override_hyperlink_color = some x →
      (c.to_visuals darkBase lightBase).hyperlink_color = Color32.fromRgbaUnmultiplied x.r x.g x.b x.a) ∧
    (∀ x, c.override_faint_bg_color = some x →
      (c.to_visuals darkBase lightBase).faint_bg_color = Color32.fromRgbaUnmultiplied x.r x.g x.b x.a) ∧
    (∀ x, c.override_extreme_bg_color = some x →
      (c.to_visuals darkBase lightBase).extreme_bg_color = Color32.fromRgbaUnmultiplied x.r x.g x.b x.a) ∧
    (∀ x, c.override_code_bg_color = some x →
      (c.to_visuals darkBase lightBase).code_bg_color = Color32.fromRgbaUnmultiplied x.r x.g x.b x.a) ∧
    (∀ x, c.override_warn_fg_color = some x →
      (c.to_visuals darkBase lightBase).warn_fg_color = Color32.fromRgbaUnmultiplied x.r x.g x.b x.a) ∧
    (∀ x, c.override_error_fg_color = some x →
      (c.to_visuals darkBase lightBase).error_fg_color = Color32.fromRgbaUnmultiplied x.r x.g x.b x.a) ∧
    (∀ x, c.override_window_fill = some x →
      (c.to_visuals darkBase lightBase).window_fill = Color32.fromRgbaUnmultiplied x.r x.g x.b x.a) ∧
    (∀ x, c.override_window_stroke_color = some x →
      (c.to_visuals darkBase lightBase).window_stroke.color = Color32.fromRgbaUnmultiplied x.r x.g x.b x.a) ∧
    (∀ x, c.override_window_stroke_width = some x →
      (c.to_visuals darkBase lightBase).window_stroke.width = x) ∧
    (∀ x, c.override_window_corner_radius = some x →
      (c.to_visuals darkBase lightBase).window_corner_radius = CornerRadius.same x) ∧
    (∀ x, c.override_window_shadow_size = some x →
      (c.to_visuals darkBase lightBase).window_shadow.spread = x) ∧
    (∀ x, c.override_panel_fill = some x →
      (c.to_visuals darkBase lightBase).panel_fill = Color32.fromRgbaUnmultiplied x.r x.g x.b x.a) ∧
    (∀ x, c.override_popup_shadow_size = some x →
      (c.to_visuals darkBase lightBase).popup_shadow.spread = x) ∧
    (∀ x, c.override_selection_bg = some x →
      (c.to_visuals darkBase lightBase).selection.bg_fill = Color32.fromRgbaUnmultiplied x.r x.g x.b x.a) ∧
    (∀ x, c.override_selection_stroke_color = some x →
      (c.to_visuals darkBase lightBase).selection.stroke.color = Color32.fromRgbaUnmultiplied x.r x.g x.b x.a) ∧
    (∀ x, c.override_selection_stroke_width = some x →
      (c.to_visuals darkBase lightBase).selection.stroke.width = x) ∧
    (∀ x, c.override_widget_noninteractive_bg_fill = some x →
      (c.to_visuals darkBase lightBase).widgets.noninteractive.bg_fill = Color32.fromRgbaUnmultiplied x.r x.g x.b x.a) ∧
    (∀ x, c.override_widget_noninteractive_weak_bg_fill = some x →
      (c.to_visuals darkBase lightBase).widgets.noninteractive.weak_bg_fill = Color32.fromRgbaUnmultiplied x.r x.g x.b x.a) ∧
    (∀ x, c.override_widget_noninteractive_bg_stroke_color = some x →
      (c.to_visuals darkBase lightBase).widgets.noninteractive.bg_stroke.color = Color32.fromRgbaUnmultiplied x.r x.g x.b x.a) ∧
    (∀ x, c.override_widget_noninteractive_bg_stroke_width = some x →
      (c.to_visuals darkBase lightBase).widgets.noninteractive.bg_stroke.width = x) ∧
    (∀ x, c.override_widget_noninteractive_corner_radius = some x →
      (c.to_visuals darkBase lightBase).widgets.noninteractive.corner_radius = CornerRadius.same x) ∧
    (∀ x, c.override_widget_noninteractive_fg_stroke_color = some x →
      (c.to_visuals darkBase lightBase).widgets.noninteractive.fg_stroke.color = Color32.fromRgbaUnmultiplied x.r x.g x.b x.a) ∧
    (∀ x, c.override_widget_noninteractive_fg_stroke_width = some x →
      (c.to_visuals darkBase lightBase).widgets.noninteractive.fg_stroke.width = x) ∧
    (∀ x, c.override_widget_noninteractive_expansion = some x →
      (c.to_visuals darkBase lightBase).widgets.noninteractive.expansion = x) ∧
    (∀ x, c.override_widget_inactive_bg_fill = some x →
      (c.to_visuals darkBase lightBase).widgets.inactive.bg_fill = Color32.fromRgbaUnmultiplied x.r x.g x.b x.a) ∧
    (∀ x, c.override_widget_inactive_weak_bg_fill = some x →
      (c.to_visuals darkBase lightBase).widgets.inactive.weak_bg_fill = Color32.fromRgbaUnmultiplied x.r x.g x.b x.a) ∧
    (∀ x, c.override_widget_inactive_bg_stroke_color = some x →
      (c.to_visuals darkBase lightBase).widgets.inactive.bg_stroke.color = Color32.fromRgbaUnmultiplied x.r x.g x.b x.a) ∧
    (∀ x, c.override_widget_inactive_bg_stroke_width = some x →
      (c.to_visuals darkBase lightBase).widgets.inactive.bg_stroke.width = x) ∧
    (∀ x, c.override_widget_inactive_corner_radius = some x →
      (c.to_visuals darkBase lightBase).widgets.inactive.corner_radius = CornerRadius.same x) ∧
    (∀ x, c.override_widget_inactive_fg_stroke_color = some x →
      (c.to_visuals darkBase lightBase).widgets.inactive.fg_stroke.color = Color32.fromRgbaUnmultiplied x.r x.g x.b x.a) ∧
    (∀ x, c.override_widget_inactive_fg_stroke_width = some x →
      (c.to_visuals darkBase lightBase).widgets.inactive.fg_stroke.width = x) ∧
    (∀ x, c.override_widget_inactive_expansion = some x →
      (c.to_visuals darkBase lightBase).widgets.inactive.expansion = x) ∧
    (∀ x, c.override_widget_hovered_bg_fill = some x →
      (c.to_visuals darkBase lightBase).widgets.hovered.bg_fill = Color32.fromRgbaUnmultiplied x.r x.g x.b x.a) ∧
    (∀ x, c.override_widget_hovered_weak_bg_fill = some x →
      (c.to_visuals darkBase lightBase).widgets.hovered.weak_bg_fill = Color32.fromRgbaUnmultiplied x.r x.g x.b x.a) ∧
    (∀ x, c.override_widget_hovered_bg_stroke_color = some x →
      (c.to_visuals darkBase lightBase).widgets.hovered.bg_stroke.color = Color32.fromRgbaUnmultiplied x.r x.g x.b x.a) ∧
    (∀ x, c.override_widget_hovered_bg_stroke_width = some x →
      (c.to_visuals darkBase lightBase).widgets.hovered.bg_stroke.width = x) ∧
    (∀ x, c.override_widget_hovered_corner_radius = some x →
      (c.to_visuals darkBase lightBase).widgets.hovered.corner_radius = CornerRadius.same x) ∧
    (∀ x, c.override_widget_hovered_fg_stroke_color = some x →
      (c.to_visuals darkBase lightBase).widgets.hovered.fg_stroke.color = Color32.fromRgbaUnmultiplied x.r x.g x.b x.a) ∧
    (∀ x, c.override_widget_hovered_fg_stroke_width = some x →
      (c.to_visuals darkBase lightBase).widgets.hovered.fg_stroke.width = x) ∧
    (∀ x, c.override_widget_hovered_expansion = some x →
      (c.to_visuals darkBase lightBase).widgets.hovered.expansion = x) ∧
    (∀ x, c.override_widget_active_bg_fill = some x →
      (c.to_visuals darkBase lightBase).widgets.active.bg_fill = Color32.fromRgbaUnmultiplied x.r x.g x.b x.a) ∧
    (∀ x, c.override_widget_active_weak_bg_fill = some x →
      (c.to_visuals darkBase lightBase).widgets.active.weak_bg_fill = Color32.fromRgbaUnmultiplied x.r x.g x.b x.a) ∧
    (∀ x, c.override_widget_active_bg_stroke_color = some x →
      (c.to_visuals darkBase lightBase).widgets.active.bg_stroke.color = Color32.fromRgbaUnmultiplied x.r x.g x.b x.a) ∧
    (∀ x, c.override_widget_active_bg_stroke_width = some x →
      (c.to_visuals darkBase lightBase).widgets.active.bg_stroke.width = x) ∧
    (∀ x, c.override_widget_active_corner_radius = some x →
      (c.to_visuals darkBase lightBase).widgets.active.corner_radius = CornerRadius.same x) ∧
    (∀ x, c.override_widget_active_fg_stroke_color = some x →
      (c.to_visuals darkBase lightBase).widgets.active.fg_stroke.color = Color32.fromRgbaUnmultiplied x.r x.g x.b x.a) ∧
    (∀ x, c.override_widget_active_fg_stroke_width = some x →
      (c.to_visuals darkBase lightBase).widgets.active.fg_stroke.width = x) ∧
    (∀ x, c.override_widget_active_expansion = some x →
      (c.to_visuals darkBase lightBase).widgets.active.expansion = x) ∧
    (∀ x, c.override_widget_open_bg_fill = some x →
      (c.to_visuals darkBase lightBase).widgets.«open».bg_fill = Color32.fromRgbaUnmultiplied x.r x.g x.b x.a) ∧
    (∀ x, c.override_widget_open_weak_bg_fill = some x →
      (c.to_visuals darkBase lightBase).widgets.«open».weak_bg_fill = Color32.fromRgbaUnmultiplied x.r x.g x.b x.a) ∧
    (∀ x, c.override_widget_open_bg_stroke_color = some x →
      (c.to_visuals darkBase lightBase).widgets.«open».bg_stroke.color = Color32.fromRgbaUnmultiplied x.r x.g x.b x.a) ∧
    (∀ x, c.override_widget_open_bg_stroke_width = some x →
      (c.to_visuals darkBase lightBase).widgets.«open».bg_stroke.width = x) ∧
    (∀ x, c.override_widget_open_corner_radius = some x →
      (c.to_visuals darkBase lightBase).widgets.«open».corner_radius = CornerRadius.same x) ∧
    (∀ x, c.override_widget_open_fg_stroke_color = some x →
      (c.to_visuals darkBase lightBase).widgets.«open».fg_stroke.color = Color32.fromRgbaUnmultiplied x.r x.g x.b x.a) ∧
    (∀ x, c.override_widget_open_fg_stroke_width = some x →
      (c.to_visuals darkBase lightBase).widgets.«open».fg_stroke.width = x) ∧
    (∀ x, c.override_widget_open_expansion = some x →
      (c.to_visuals darkBase lightBase).widgets.«open».expansion = x) ∧
    (∀ x, c.override_resize_corner_size = some x →
      (c.to_visuals darkBase lightBase).resize_corner_size = x) ∧
    (∀ x, c.override_text_cursor_width = some x →
      (c.to_visuals darkBase lightBase).text_cursor.stroke.width = x) ∧
    (∀ x, c.override_clip_rect_margin = some x →
      (c.to_visuals darkBase lightBase).clip_rect_margin = x) ∧
    (∀ x, c.override_button_frame = some x →
      (c.to_visuals darkBase lightBase).button_frame = x) ∧
    (∀ x, c.override_collapsing_header_frame = some x →
      (c.to_visuals darkBase lightBase).collapsing_header_frame = x) ∧
    (∀ x, c.override_indent_has_left_vline = some x →
      (c.to_visuals darkBase lightBase).indent_has_left_vline = x) ∧
    (∀ x, c.override_striped = some x →
      (c.to_visuals darkBase lightBase).striped = x) ∧
    (∀ x, c.override_slider_trailing_fill = some x →
      (c.to_visuals darkBase lightBase).slider_trailing_fill = x) :=
  ⟨fun _ hx => by simp only [ThemeConfig.to_visuals, mergeWidget, hx],
   fun _ hx => by simp only [ThemeConfig.to_visuals, mergeWidget, hx],
   fun _ hx => by simp only [ThemeConfig.to_visuals, mergeWidget, hx],
   fun _ hx => by simp only [ThemeConfig.to_visuals, mergeWidget, hx],
   fun _ hx => by simp only [ThemeConfig.to_visuals, mergeWidget, hx],
   fun _ hx => by simp only [ThemeConfig.to_visuals, mergeWidget, hx],
   fun _ hx => by simp only [ThemeConfig.to_visuals, mergeWidget, hx],
   fun _ hx => by simp only [ThemeConfig.to_visuals, mergeWidget, hx],
   fun _ hx => by simp only [ThemeConfig.to_visuals, mergeWidget, hx],
   fun _ hx => by simp only [ThemeConfig.to_visuals, mergeWidget, hx],
   fun _ hx => by simp only [ThemeConfig.to_visuals, mergeWidget, hx],
   fun _ hx => by simp only [ThemeConfig.to_visuals, mergeWidget, hx],
   fun _ hx => by simp only [ThemeConfig.to_visuals, mergeWidget, hx],
   fun _ hx => by simp only [ThemeConfig.to_visuals, mergeWidget, hx],
   fun _ hx => by simp only [ThemeConfig.to_visuals, mergeWidget, hx],
   fun _ hx => by simp only [ThemeConfig.to_visuals, mergeWidget, hx],
   fun _ hx => by simp only [ThemeConfig.to_visuals, mergeWidget, hx],
   fun _ hx => by simp only [ThemeConfig.to_visuals, mergeWidget, hx],
   fun _ hx => by simp only [ThemeConfig.to_visuals, mergeWidget, hx],
   fun _ hx => by simp only [ThemeConfig.to_visuals, mergeWidget, hx],
   fun _ hx => by simp only [ThemeConfig.to_visuals, mergeWidget, hx],
   fun _ hx => by simp only [ThemeConfig.to_visuals, mergeWidget, hx],
   fun _ hx => by simp only [ThemeConfig.to_visuals, mergeWidget, hx],
   fun _ hx => by simp only [ThemeConfig.to_visuals, mergeWidget, hx],
   fun _ hx => by simp only [ThemeConfig.to_visuals, mergeWidget, hx],
   fun _ hx => by simp only [ThemeConfig.to_visuals, mergeWidget, hx],
   fun _ hx => by simp only [ThemeConfig.to_visuals, mergeWidget, hx],
   fun _ hx => by simp only [ThemeConfig.to_visuals, mergeWidget, hx],
   fun _ hx => by simp only [ThemeConfig.to_visuals, mergeWidget, hx],
   fun _ hx => by simp only [ThemeConfig.to_visuals, mergeWidget, hx],
   fun _ hx => by simp only [ThemeConfig.to_visuals, mergeWidget, hx],
   fun _ hx => by simp only [ThemeConfig.to_visuals, mergeWidget, hx],
   fun _ hx => by simp only [ThemeConfig.to_visuals, mergeWidget, hx],
   fun _ hx => by simp only [ThemeConfig.to_visuals, mergeWidget, hx],
   fun _ hx => by simp only [ThemeConfig.to_visuals, mergeWidget, hx],
   fun _ hx => by simp only [ThemeConfig.to_visuals, mergeWidget, hx],
   fun _ hx => by simp only [ThemeConfig.to_visuals, mergeWidget, hx],
   fun _ hx => by simp only [ThemeConfig.to_visuals, mergeWidget, hx],
   fun _ hx => by simp only [ThemeConfig.to_visuals, mergeWidget, hx],
   fun _ hx => by simp only [ThemeConfig.to_visuals, mergeWidget, hx],
   fun _ hx => by simp only [ThemeConfig.to_visuals, mergeWidget, hx],
   fun _ hx => by simp only [ThemeConfig.to_visuals, mergeWidget, hx],
   fun _ hx => by simp only [ThemeConfig.to_visuals, mergeWidget, hx],
   fun _ hx => by simp only [ThemeConfig.to_visuals, mergeWidget, hx],
   fun _ hx => by simp only [ThemeConfig.to_visuals, mergeWidget, hx],
   fun _ hx => by simp only [ThemeConfig.to_visuals, mergeWidget, hx],
   fun _ hx => by simp only [ThemeConfig.to_visuals, mergeWidget, hx],
   fun _ hx => by simp only [ThemeConfig.to_visuals, mergeWidget, hx],
   fun _ hx => by simp only [ThemeConfig.to_visuals, mergeWidget, hx],
   fun _ hx => by simp only [ThemeConfig.to_visuals, mergeWidget, hx],
   fun _ hx => by simp only [ThemeConfig.to_visuals, mergeWidget, hx],
   fun _ hx => by simp only [ThemeConfig.to_visuals, mergeWidget, hx],
   fun _ hx => by simp only [ThemeConfig.to_visuals, mergeWidget, hx],
   fun _ hx => by simp only [ThemeConfig.to_visuals, mergeWidget, hx],
   fun _ hx => by simp only [ThemeConfig.to_visuals, mergeWidget, hx],
   fun _ hx => by simp only [ThemeConfig.to_visuals, mergeWidget, hx],
   fun _ hx => by simp only [ThemeConfig.to_visuals, mergeWidget, hx],
   fun _ hx => by simp only [ThemeConfig.to_visuals, mergeWidget, hx],
   fun _ hx => by simp only [ThemeConfig.to_visuals, mergeWidget, hx],
   fun _ hx => by simp only [ThemeConfig.to_visuals, mergeWidget, hx],
   fun _ hx => by simp only [ThemeConfig.to_visuals, mergeWidget, hx],
   fun _ hx => by simp only [ThemeConfig.to_visuals, mergeWidget, hx],
   fun _ hx => by simp only [ThemeConfig.to_visuals, mergeWidget, hx],
   fun _ hx => by simp only [ThemeConfig.to_visuals, mergeWidget, hx],
   fun _ hx => by simp only [ThemeConfig.to_visuals, mergeWidget, hx],
   fun _ hx => by simp only [ThemeConfig.to_visuals, mergeWidget, hx]⟩


/-- Witness for C3: the Dracula preset sets `override_text_color`, and the
merged visuals carry exactly that decoded color. -/
theorem claim3_override_precedence_witness :
    ThemeConfig.dracula_preset.override_text_color = some ⟨248, 248, 242, 255⟩ ∧
    (ThemeConfig.dracula_preset.to_visuals sampleDarkVisuals sampleLightVisuals).override_text_color
      = some (Color32.fromRgbaUnmultiplied 248 248 242 255) :=
  ⟨rfl,
   (claim3_override_precedence ThemeConfig.dracula_preset sampleDarkVisuals
      sampleLightVisuals).1 ⟨248, 248, 242, 255⟩ rfl⟩

/-- The configuration of claim C4: only the text color is overridden (with
opaque red); every other override is `None`. -/
def redTextConfig (d : Bool) : ThemeConfig :=
  { ThemeConfig.default with
    name := "Red Text",
    dark_mode := d,
    override_text_color := some ⟨255, 0, 0, 255⟩ }

/-- Claim C4 (single-override frame property): for either mode flag and any
base records, merging the red-text-only configuration yields the selected
base with exactly the text-color field replaced by opaque red. -/
theorem claim4_single_override_red_text (d : Bool) (darkBase lightBase : Visuals) :
    (redTextConfig d).to_visuals darkBase lightBase
      = { (if d then darkBase else lightBase) with
          override_text_color := some (Color32.fromRgbaUnmultiplied 255 0 0 255) } := by
  rfl
/-- Model of a parsed JSON document (the value level of `serde_json`).  The
persistence claims are settled at this level: `serde_json`'s text printer and
parser are external library code whose print/parse faithfulness is assumed.
JSON numbers carry the `Nat` payloads the repository stores (`u8` components
and `f32` bit patterns); no claim involves fractional or negative literals. -/
inductive Json where
  | null : Json
  | bool (b : Bool) : Json
  | num (n : Nat) : Json
  | str (s : String) : Json
  | arr (elems : List Json) : Json
  | obj (fields : List (String × Json)) : Json

/-- First-occurrence lookup of a key in the field list of a JSON object. -/
def lookupJson (key : String) : List (String × Json) → Option Json
  | [] => none
  | (k, v) :: rest => if k = key then some v else lookupJson key rest

/-- Serialization of a stored `[u8; 4]` color: a four-element JSON array. -/
def colorJson (c : Rgba) : Json :=
  .arr [.num c.r.val, .num c.g.val, .num c.b.val, .num c.a.val]

/-- Serialization of an `f32` value (its bit-pattern payload). -/
def f32Json (x : F32) : Json :=
  .num x

/-- Serialization of a `u8` value. -/
def u8Json (b : Byte) : Json :=
  .num b.val

/-- Serialization of a `bool` value. -/
def boolJson (b : Bool) : Json :=
  .bool b

/-- Serde serializes an `Option` field as `null` when `None` (the derive in
`src/config.rs` line 3 carries no `skip_serializing_if` attribute) and as the
payload's encoding when `Some`. -/
def optJson (f : α → Json) : Option α → Json
  | some v => f v
  | none => .null

/-- Deserialization of a `[u8; 4]` color: exactly four in-range integers. -/
def parseColor : Json → Except String Rgba
  | .arr [.num r, .num g, .num b, .num a] =>
    if h : r < 256 ∧ g < 256 ∧ b < 256 ∧ a < 256 then
      .ok ⟨⟨r, h.1⟩, ⟨g, h.2.1⟩, ⟨b, h.2.2.1⟩, ⟨a, h.2.2.2⟩⟩
    else .error "color component out of range"
  | _ => .error "expected a [r,g,b,a] array"

/-- Deserialization of an `f32` value. -/
def parseF32 : Json → Except String F32
  | .num n => .ok n
  | _ => .error "expected a number"

/-- Deserialization of a `u8` value. -/
def parseU8 : Json → Except String Byte
  | .num n => if h : n < 256 then .ok ⟨n, h⟩ else .error "u8 out of range"
  | _ => .error "expected an integer"

/-- Deserialization of a `bool` value. -/
def parseBool : Json → Except String Bool
  | .bool b => .ok b
  | _ => .error "expected a boolean"

/-- Deserialization of a string value. -/
def parseString : Json → Except String String
  | .str s => .ok s
  | _ => .error "expected a string"

/-- Serde's handling of an `Option` struct field: a missing key and an
explicit `null` both give `None`; any other value must parse. -/
def parseOptField (p : Json → Except String α) (key : String)
    (kvs : List (String × Json)) : Except String (Option α) :=
  match lookupJson key kvs with
  | none => .ok none
  | some .null => .ok none
  | some v => Except.map some (p v)

/-- Serde's handling of a required struct field: a missing key is an error. -/
def parseReqField (p : Json → Except String α) (key : String)
    (kvs : List (String × Json)) : Except String α :=
  match lookupJson key kvs with
  | none => .error ("missing field " ++ key)
  | some v => p v

/-- The serialized field list of a `ThemeConfig`, in struct declaration order
(serde derive serializes fields in declaration order). -/
def ThemeConfig.toJsonFields (c : ThemeConfig) : List (String × Json) :=
  [("name", .str c.name),
   ("dark_mode", .bool c.dark_mode),
   ("override_text_color", optJson colorJson c.override_text_color),
   ("override_weak_text_color", optJson colorJson c.override_weak_text_color),
   ("override_hyperlink_color", optJson colorJson c.override_hyperlink_color),
   ("override_faint_bg_color", optJson colorJson c.override_faint_bg_color),
   ("override_extreme_bg_color", optJson colorJson c.override_extreme_bg_color),
   ("override_code_bg_color", optJson colorJson c.override_code_bg_color),
   ("override_warn_fg_color", optJson colorJson c.override_warn_fg_color),
   ("override_error_fg_color", optJson colorJson c.override_error_fg_color),
   ("override_window_fill", optJson colorJson c.override_window_fill),
   ("override_window_stroke_color", optJson colorJson c.override_window_stroke_color),
   ("override_window_stroke_width", optJson f32Json c.override_window_stroke_width),
   ("override_window_corner_radius", optJson u8Json c.override_window_corner_radius),
   ("override_window_shadow_size", optJson u8Json c.override_window_shadow_size),
   ("override_panel_fill", optJson colorJson c.override_panel_fill),
   ("override_popup_shadow_size", optJson u8Json c.override_popup_shadow_size),
   ("override_selection_bg", optJson colorJson c.override_selection_bg),
   ("override_selection_stroke_color", optJson colorJson c.override_selection_stroke_color),
   ("override_selection_stroke_width", optJson f32Json c.override_selection_stroke_width),
   ("override_widget_noninteractive_bg_fill", optJson colorJson c.override_widget_noninteractive_bg_fill),
   ("override_widget_noninteractive_weak_bg_fill", optJson colorJson c.override_widget_noninteractive_weak_bg_fill),
   ("override_widget_noninteractive_bg_stroke_color", optJson colorJson c.override_widget_noninteractive_bg_stroke_color),
   ("override_widget_noninteractive_bg_stroke_width", optJson f32Json c.override_widget_noninteractive_bg_stroke_width),
   ("override_widget_noninteractive_corner_radius", optJson u8Json c.override_widget_noninteractive_corner_radius),
   ("override_widget_noninteractive_fg_stroke_color", optJson colorJson c.override_widget_noninteractive_fg_stroke_color),
   ("override_widget_noninteractive_fg_stroke_width", optJson f32Json c.override_widget_noninteractive_fg_stroke_width),
   ("override_widget_noninteractive_expansion", optJson f32Json c.override_widget_noninteractive_expansion),
   ("override_widget_inactive_bg_fill", optJson colorJson c.override_widget_inactive_bg_fill),
   ("override_widget_inactive_weak_bg_fill", optJson colorJson c.override_widget_inactive_weak_bg_fill),
   ("override_widget_inactive_bg_stroke_color", optJson colorJson c.override_widget_inactive_bg_stroke_color),
   ("override_widget_inactive_bg_stroke_width", optJson f32Json c.override_widget_inactive_bg_stroke_width),
   ("override_widget_inactive_corner_radius", optJson u8Json c.override_widget_inactive_corner_radius),
   ("override_widget_inactive_fg_stroke_color", optJson colorJson c.override_widget_inactive_fg_stroke_color),
   ("override_widget_inactive_fg_stroke_width", optJson f32Json c.override_widget_inactive_fg_stroke_width),
   ("override_widget_inactive_expansion", optJson f32Json c.override_widget_inactive_expansion),
   ("override_widget_hovered_bg_fill", optJson colorJson c.override_widget_hovered_bg_fill),
   ("override_widget_hovered_weak_bg_fill", optJson colorJson c.override_widget_hovered_weak_bg_fill),
   ("override_widget_hovered_bg_stroke_color", optJson colorJson c.override_widget_hovered_bg_stroke_color),
   ("override_widget_hovered_bg_stroke_width", optJson f32Json c.override_widget_hovered_bg_stroke_width),
   ("override_widget_hovered_corner_radius", optJson u8Json c.override_widget_hovered_corner_radius),
   ("override_widget_hovered_fg_stroke_color", optJson colorJson c.override_widget_hovered_fg_stroke_color),
   ("override_widget_hovered_fg_stroke_width", optJson f32Json c.override_widget_hovered_fg_stroke_width),
   ("override_widget_hovered_expansion", optJson f32Json c.override_widget_hovered_expansion),
   ("override_widget_active_bg_fill", optJson colorJson c.override_widget_active_bg_fill),
   ("override_widget_active_weak_bg_fill", optJson colorJson c.override_widget_active_weak_bg_fill),
   ("override_widget_active_bg_stroke_color", optJson colorJson c.override_widget_active_bg_stroke_color),
   ("override_widget_active_bg_stroke_width", optJson f32Json c.override_widget_active_bg_stroke_width),
   ("override_widget_active_corner_radius", optJson u8Json c.override_widget_active_corner_radius),
   ("override_widget_active_fg_stroke_color", optJson colorJson c.override_widget_active_fg_stroke_color),
   ("override_widget_active_fg_stroke_width", optJson f32Json c.override_widget_active_fg_stroke_width),
   ("override_widget_active_expansion", optJson f32Json c.override_widget_active_expansion),
   ("override_widget_open_bg_fill", optJson colorJson c.override_widget_open_bg_fill),
   ("override_widget_open_weak_bg_fill", optJson colorJson c.override_widget_open_weak_bg_fill),
   ("override_widget_open_bg_stroke_color", optJson colorJson c.override_widget_open_bg_stroke_color),
   ("override_widget_open_bg_stroke_width", optJson f32Json c.override_widget_open_bg_stroke_width),
   ("override_widget_open_corner_radius", optJson u8Json c.override_widget_open_corner_radius),
   ("override_widget_open_fg_stroke_color", optJson colorJson c.override_widget_open_fg_stroke_color),
   ("override_widget_open_fg_stroke_width", optJson f32Json c.override_widget_open_fg_stroke_width),
   ("override_widget_open_expansion", optJson f32Json c.override_widget_open_expansion),
   ("override_resize_corner_size", optJson f32Json c.override_resize_corner_size),
   ("override_text_cursor_width", optJson f32Json c.override_text_cursor_width),
   ("override_clip_rect_margin", optJson f32Json c.override_clip_rect_margin),
   ("override_button_frame", optJson boolJson c.override_button_frame),
   ("override_collapsing_header_frame", optJson boolJson c.override_collapsing_header_frame),
   ("override_indent_has_left_vline", optJson boolJson c.override_indent_has_left_vline),
   ("override_striped", optJson boolJson c.override_striped),
   ("override_slider_trailing_fill", optJson boolJson c.override_slider_trailing_fill)]

/-- Model of the serialization performed by `ThemeConfig::save_to_file`
(`src/config.rs` lines 665-669): the JSON value produced by
`serde_json::to_string_pretty(self)`. -/
def ThemeConfig.toJson (c : ThemeConfig) : Json :=
  .obj c.toJsonFields

/-- Model of the deserialization performed by `ThemeConfig::load_from_file`
(`src/config.rs` lines 671-675): the serde-derive struct deserializer, on
the JSON value level.  Required fields `name` and `dark_mode` must be
present with the right type; every `Option` field defaults to `None` when
missing or `null`; unknown keys are ignored (no `deny_unknown_fields`). -/
def ThemeConfig.fromJson : Json → Except String ThemeConfig
  | .obj kvs => do
    let name ← parseReqField parseString "name" kvs
    let dark_mode ← parseReqField parseBool "dark_mode" kvs
    let override_text_color ← parseOptField parseColor "override_text_color" kvs
    let override_weak_text_color ← parseOptField parseColor "override_weak_text_color" kvs
    let override_hyperlink_color ← parseOptField parseColor "override_hyperlink_color" kvs
    let override_faint_bg_color ← parseOptField parseColor "override_faint_bg_color" kvs
    let override_extreme_bg_color ← parseOptField parseColor "override_extreme_bg_color" kvs
    let override_code_bg_color ← parseOptField parseColor "override_code_bg_color" kvs
    let override_warn_fg_color ← parseOptField parseColor "override_warn_fg_color" kvs
    let override_error_fg_color ← parseOptField parseColor "override_error_fg_color" kvs
    let override_window_fill ← parseOptField parseColor "override_window_fill" kvs
    let override_window_stroke_color ← parseOptField parseColor "override_window_stroke_color" kvs
    let override_window_stroke_width ← parseOptField parseF32 "override_window_stroke_width" kvs
    let override_window_corner_radius ← parseOptField parseU8 "override_window_corner_radius" kvs
    let override_window_shadow_size ← parseOptField parseU8 "override_window_shadow_size" kvs
    let override_panel_fill ← parseOptField parseColor "override_panel_fill" kvs
    let override_popup_shadow_size ← parseOptField parseU8 "override_popup_shadow_size" kvs
    let override_selection_bg ← parseOptField parseColor "override_selection_bg" kvs
    let override_selection_stroke_color ← parseOptField parseColor "override_selection_stroke_color" kvs
    let override_selection_stroke_width ← parseOptField parseF32 "override_selection_stroke_width" kvs
    let override_widget_noninteractive_bg_fill ← parseOptField parseColor "override_widget_noninteractive_bg_fill" kvs
    let override_widget_noninteractive_weak_bg_fill ← parseOptField parseColor "override_widget_noninteractive_weak_bg_fill" kvs
    let override_widget_noninteractive_bg_stroke_color ← parseOptField parseColor "override_widget_noninteractive_bg_stroke_color" kvs
    let override_widget_noninteractive_bg_stroke_width ← parseOptField parseF32 "override_widget_noninteractive_bg_stroke_width" kvs
    let override_widget_noninteractive_corner_radius ← parseOptField parseU8 "override_widget_noninteractive_corner_radius" kvs
    let override_widget_noninteractive_fg_stroke_color ← parseOptField parseColor "override_widget_noninteractive_fg_stroke_color" kvs
    let override_widget_noninteractive_fg_stroke_width ← parseOptField parseF32 "override_widget_noninteractive_fg_stroke_width" kvs
    let override_widget_noninteractive_expansion ← parseOptField parseF32 "override_widget_noninteractive_expansion" kvs
    let override_widget_inactive_bg_fill ← parseOptField parseColor "override_widget_inactive_bg_fill" kvs
    let override_widget_inactive_weak_bg_fill ← parseOptField parseColor "override_widget_inactive_weak_bg_fill" kvs
    let override_widget_inactive_bg_stroke_color ← parseOptField parseColor "override_widget_inactive_bg_stroke_color" kvs
    let override_widget_inactive_bg_stroke_width ← parseOptField parseF32 "override_widget_inactive_bg_stroke_width" kvs
    let override_widget_inactive_corner_radius ← parseOptField parseU8 "override_widget_inactive_corner_radius" kvs
    let override_widget_inactive_fg_stroke_color ← parseOptField parseColor "override_widget_inactive_fg_stroke_color" kvs
    let override_widget_inactive_fg_stroke_width ← parseOptField parseF32 "override_widget_inactive_fg_stroke_width" kvs
    let override_widget_inactive_expansion ← parseOptField parseF32 "override_widget_inactive_expansion" kvs
    let override_widget_hovered_bg_fill ← parseOptField parseColor "override_widget_hovered_bg_fill" kvs
    let override_widget_hovered_weak_bg_fill ← parseOptField parseColor "override_widget_hovered_weak_bg_fill" kvs
    let override_widget_hovered_bg_stroke_color ← parseOptField parseColor "override_widget_hovered_bg_stroke_color" kvs
    let override_widget_hovered_bg_stroke_width ← parseOptField parseF32 "override_widget_hovered_bg_stroke_width" kvs
    let override_widget_hovered_corner_radius ← parseOptField parseU8 "override_widget_hovered_corner_radius" kvs
    let override_widget_hovered_fg_stroke_color ← parseOptField parseColor "override_widget_hovered_fg_stroke_color" kvs
    let override_widget_hovered_fg_stroke_width ← parseOptField parseF32 "override_widget_hovered_fg_stroke_width" kvs
    let override_widget_hovered_expansion ← parseOptField parseF32 "override_widget_hovered_expansion" kvs
    let override_widget_active_bg_fill ← parseOptField parseColor "override_widget_active_bg_fill" kvs
    let override_widget_active_weak_bg_fill ← parseOptField parseColor "override_widget_active_weak_bg_fill" kvs
    let override_widget_active_bg_stroke_color ← parseOptField parseColor "override_widget_active_bg_stroke_color" kvs
    let override_widget_active_bg_stroke_width ← parseOptField parseF32 "override_widget_active_bg_stroke_width" kvs
    let override_widget_active_corner_radius ← parseOptField parseU8 "override_widget_active_corner_radius" kvs
    let override_widget_active_fg_stroke_color ← parseOptField parseColor "override_widget_active_fg_stroke_color" kvs
    let override_widget_active_fg_stroke_width ← parseOptField parseF32 "override_widget_active_fg_stroke_width" kvs
    let override_widget_active_expansion ← parseOptField parseF32 "override_widget_active_expansion" kvs
    let override_widget_open_bg_fill ← parseOptField parseColor "override_widget_open_bg_fill" kvs
    let override_widget_open_weak_bg_fill ← parseOptField parseColor "override_widget_open_weak_bg_fill" kvs
    let override_widget_open_bg_stroke_color ← parseOptField parseColor "override_widget_open_bg_stroke_color" kvs
    let override_widget_open_bg_stroke_width ← parseOptField parseF32 "override_widget_open_bg_stroke_width" kvs
    let override_widget_open_corner_radius ← parseOptField parseU8 "override_widget_open_corner_radius" kvs
    let override_widget_open_fg_stroke_color ← parseOptField parseColor "override_widget_open_fg_stroke_color" kvs
    let override_widget_open_fg_stroke_width ← parseOptField parseF32 "override_widget_open_fg_stroke_width" kvs
    let override_widget_open_expansion ← parseOptField parseF32 "override_widget_open_expansion" kvs
    let override_resize_corner_size ← parseOptField parseF32 "override_resize_corner_size" kvs
    let override_text_cursor_width ← parseOptField parseF32 "override_text_cursor_width" kvs
    let override_clip_rect_margin ← parseOptField parseF32 "override_clip_rect_margin" kvs
    let override_button_frame ← parseOptField parseBool "override_button_frame" kvs
    let override_collapsing_header_frame ← parseOptField parseBool "override_collapsing_header_frame" kvs
    let override_indent_has_left_vline ← parseOptField parseBool "override_indent_has_left_vline" kvs
    let override_striped ← parseOptField parseBool "override_striped" kvs
    let override_slider_trailing_fill ← parseOptField parseBool "override_slider_trailing_fill" kvs
    .ok { name := name,
          dark_mode := dark_mode,
          override_text_color := override_text_color,
          override_weak_text_color := override_weak_text_color,
          override_hyperlink_color := override_hyperlink_color,
          override_faint_bg_color := override_faint_bg_color,
          override_extreme_bg_color := override_extreme_bg_color,
          override_code_bg_color := override_code_bg_color,
          override_warn_fg_color := override_warn_fg_color,
          override_error_fg_color := override_error_fg_color,
          override_window_fill := override_window_fill,
          override_window_stroke_color := override_window_stroke_color,
          override_window_stroke_width := override_window_stroke_width,
          override_window_corner_radius := override_window_corner_radius,
          override_window_shadow_size := override_window_shadow_size,
          override_panel_fill := override_panel_fill,
          override_popup_shadow_size := override_popup_shadow_size,
          override_selection_bg := override_selection_bg,
          override_selection_stroke_color := override_selection_stroke_color,
          override_selection_stroke_width := override_selection_stroke_width,
          override_widget_noninteractive_bg_fill := override_widget_noninteractive_bg_fill,
          override_widget_noninteractive_weak_bg_fill := override_widget_noninteractive_weak_bg_fill,
          override_widget_noninteractive_bg_stroke_color := override_widget_noninteractive_bg_stroke_color,
          override_widget_noninteractive_bg_stroke_width := override_widget_noninteractive_bg_stroke_width,
          override_widget_noninteractive_corner_radius := override_widget_noninteractive_corner_radius,
          override_widget_noninteractive_fg_stroke_color := override_widget_noninteractive_fg_stroke_color,
          override_widget_noninteractive_fg_stroke_width := override_widget_noninteractive_fg_stroke_width,
          override_widget_noninteractive_expansion := override_widget_noninteractive_expansion,
          override_widget_inactive_bg_fill := override_widget_inactive_bg_fill,
          override_widget_inactive_weak_bg_fill := override_widget_inactive_weak_bg_fill,
          override_widget_inactive_bg_stroke_color := override_widget_inactive_bg_stroke_color,
          override_widget_inactive_bg_stroke_width := override_widget_inactive_bg_stroke_width,
          override_widget_inactive_corner_radius := override_widget_inactive_corner_radius,
          override_widget_inactive_fg_stroke_color := override_widget_inactive_fg_stroke_color,
          override_widget_inactive_fg_stroke_width := override_widget_inactive_fg_stroke_width,
          override_widget_inactive_expansion := override_widget_inactive_expansion,
          override_widget_hovered_bg_fill := override_widget_hovered_bg_fill,
          override_widget_hovered_weak_bg_fill := override_widget_hovered_weak_bg_fill,
          override_widget_hovered_bg_stroke_color := override_widget_hovered_bg_stroke_color,
          override_widget_hovered_bg_stroke_width := override_widget_hovered_bg_stroke_width,
          override_widget_hovered_corner_radius := override_widget_hovered_corner_radius,
          override_widget_hovered_fg_stroke_color := override_widget_hovered_fg_stroke_color,
          override_widget_hovered_fg_stroke_width := override_widget_hovered_fg_stroke_width,
          override_widget_hovered_expansion := override_widget_hovered_expansion,
          override_widget_active_bg_fill := override_widget_active_bg_fill,
          override_widget_active_weak_bg_fill := override_widget_active_weak_bg_fill,
          override_widget_active_bg_stroke_color := override_widget_active_bg_stroke_color,
          override_widget_active_bg_stroke_width := override_widget_active_bg_stroke_width,
          override_widget_active_corner_radius := override_widget_active_corner_radius,
          override_widget_active_fg_stroke_color := override_widget_active_fg_stroke_color,
          override_widget_active_fg_stroke_width := override_widget_active_fg_stroke_width,
          override_widget_active_expansion := override_widget_active_expansion,
          override_widget_open_bg_fill := override_widget_open_bg_fill,
          override_widget_open_weak_bg_fill := override_widget_open_weak_bg_fill,
          override_widget_open_bg_stroke_color := override_widget_open_bg_stroke_color,
          override_widget_open_bg_stroke_width := override_widget_open_bg_stroke_width,
          override_widget_open_corner_radius := override_widget_open_corner_radius,
          override_widget_open_fg_stroke_color := override_widget_open_fg_stroke_color,
          override_widget_open_fg_stroke_width := override_widget_open_fg_stroke_width,
          override_widget_open_expansion := override_widget_open_expansion,
          override_resize_corner_size := override_resize_corner_size,
          override_text_cursor_width := override_text_cursor_width,
          override_clip_rect_margin := override_clip_rect_margin,
          override_button_frame := override_button_frame,
          override_collapsing_header_frame := override_collapsing_header_frame,
          override_indent_has_left_vline := override_indent_has_left_vline,
          override_striped := override_striped,
          override_slider_trailing_fill := override_slider_trailing_fill }
  | _ => .error "expected a JSON object"

/-- Binding an `ok` result in the `Except` monad applies the continuation. -/
theorem ok_bind {α β : Type} (v : α) (f : α → Except String β) :
    (Except.ok v >>= f) = f v :=
  rfl

/-- Color values survive the encode/decode pair. -/
theorem parseColor_colorJson (v : Rgba) : parseColor (colorJson v) = .ok v := by
  rcases v with ⟨r, g, b, a⟩
  simp [colorJson, parseColor, r.isLt, g.isLt, b.isLt, a.isLt]

/-- Float (bit-pattern) values survive the encode/decode pair. -/
theorem parseF32_f32Json (v : F32) : parseF32 (f32Json v) = .ok v :=
  rfl

/-- Byte values survive the encode/decode pair. -/
theorem parseU8_u8Json (v : Byte) : parseU8 (u8Json v) = .ok v := by
  simp [u8Json, parseU8, v.isLt]

/-- Boolean values survive the encode/decode pair. -/
theorem parseBool_boolJson (v : Bool) : parseBool (boolJson v) = .ok v :=
  rfl

/-- An encoded color is never the `null` value. -/
theorem colorJson_ne_null (v : Rgba) : colorJson v ≠ Json.null :=
  fun h => Json.noConfusion h

/-- An encoded float is never the `null` value. -/
theorem f32Json_ne_null (v : F32) : f32Json v ≠ Json.null :=
  fun h => Json.noConfusion h

/-- An encoded byte is never the `null` value. -/
theorem u8Json_ne_null (v : Byte) : u8Json v ≠ Json.null :=
  fun h => Json.noConfusion h

/-- An encoded boolean is never the `null` value. -/
theorem boolJson_ne_null (v : Bool) : boolJson v ≠ Json.null :=
  fun h => Json.noConfusion h

/-- Parsing an optional field whose stored value is the encoding of `o`
recovers `o`: `None` was stored as `null`, `Some` as a non-null encoding that
decodes back. -/
theorem parseOptField_of_lookup {α : Type} (p : Json → Except String α)
    (f : α → Json) (key : String) (kvs : List (String × Json)) (o : Option α)
    (hl : lookupJson key kvs = some (optJson f o))
    (hp : ∀ v, p (f v) = .ok v) (hne : ∀ v, f v ≠ Json.null) :
    parseOptField p key kvs = .ok o := by
  cases o with
  | none => simp [parseOptField, hl, optJson]
  | some v =>
    have h2 := hp v
    cases hfv : f v <;>
      first
      | exact absurd hfv (hne v)
      | (rw [hfv] at h2
         simp [parseOptField, hl, optJson, hfv, h2, Except.map])

set_option maxHeartbeats 3200000 in
/-- Claim C1 (persistence round-trip): deserializing the JSON value produced
by serializing any `ThemeConfig` -- in particular the default, every
built-in preset and any randomized instance -- yields the very same
configuration, field for field. -/
theorem claim1_persistence_round_trip (c : ThemeConfig) :
    ThemeConfig.fromJson (ThemeConfig.toJson c) = .ok c := by
  have hname : parseReqField parseString "name" c.toJsonFields = .ok c.name := rfl
  have hdark : parseReqField parseBool "dark_mode" c.toJsonFields = .ok c.dark_mode := rfl
  have h1 : parseOptField parseColor "override_text_color" c.toJsonFields = .ok c.override_text_color :=
    parseOptField_of_lookup parseColor colorJson _ _ _ rfl parseColor_colorJson colorJson_ne_null
  have h2 : parseOptField parseColor "override_weak_text_color" c.toJsonFields = .ok c.override_weak_text_color :=
    parseOptField_of_lookup parseColor colorJson _ _ _ rfl parseColor_colorJson colorJson_ne_null
  have h3 : parseOptField parseColor "override_hyperlink_color" c.toJsonFields = .ok c.override_hyperlink_color :=
    parseOptField_of_lookup parseColor colorJson _ _ _ rfl parseColor_colorJson colorJson_ne_null
  have h4 : parseOptField parseColor "override_faint_bg_color" c.toJsonFields = .ok c.override_faint_bg_color :=
    parseOptField_of_lookup parseColor colorJson _ _ _ rfl parseColor_colorJson colorJson_ne_null
  have h5 : parseOptField parseColor "override_extreme_bg_color" c.toJsonFields = .ok c.override_extreme_bg_color :=
    parseOptField_of_lookup parseColor colorJson _ _ _ rfl parseColor_colorJson colorJson_ne_null
  have h6 : parseOptField parseColor "override_code_bg_color" c.toJsonFields = .ok c.override_code_bg_color :=
    parseOptField_of_lookup parseColor colorJson _ _ _ rfl parseColor_colorJson colorJson_ne_null
  have h7 : parseOptField parseColor "override_warn_fg_color" c.toJsonFields = .ok c.override_warn_fg_color :=
    parseOptField_of_lookup parseColor colorJson _ _ _ rfl parseColor_colorJson colorJson_ne_null
  have h8 : parseOptField parseColor "override_error_fg_color" c.toJsonFields = .ok c.override_error_fg_color :=
    parseOptField_of_lookup parseColor colorJson _ _ _ rfl parseColor_colorJson colorJson_ne_null
  have h9 : parseOptField parseColor "override_window_fill" c.toJsonFields = .ok c.override_window_fill :=
    parseOptField_of_lookup parseColor colorJson _ _ _ rfl parseColor_colorJson colorJson_ne_null
  have h10 : parseOptField parseColor "override_window_stroke_color" c.toJsonFields = .ok c.override_window_stroke_color :=
    parseOptField_of_lookup parseColor colorJson _ _ _ rfl parseColor_colorJson colorJson_ne_null
  have h11 : parseOptField parseF32 "override_window_stroke_width" c.toJsonFields = .ok c.override_window_stroke_width :=
    parseOptField_of_lookup parseF32 f32Json _ _ _ rfl parseF32_f32Json f32Json_ne_null
  have h12 : parseOptField parseU8 "override_window_corner_radius" c.toJsonFields = .ok c.override_window_corner_radius :=
    parseOptField_of_lookup parseU8 u8Json _ _ _ rfl parseU8_u8Json u8Json_ne_null
  have h13 : parseOptField parseU8 "override_window_shadow_size" c.toJsonFields = .ok c.override_window_shadow_size :=
    parseOptField_of_lookup parseU8 u8Json _ _ _ rfl parseU8_u8Json u8Json_ne_null
  have h14 : parseOptField parseColor "override_panel_fill" c.toJsonFields = .ok c.override_panel_fill :=
    parseOptField_of_lookup parseColor colorJson _ _ _ rfl parseColor_colorJson colorJson_ne_null
  have h15 : parseOptField parseU8 "override_popup_shadow_size" c.toJsonFields = .ok c.override_popup_shadow_size :=
    parseOptField_of_lookup parseU8 u8Json _ _ _ rfl parseU8_u8Json u8Json_ne_null
  have h16 : parseOptField parseColor "override_selection_bg" c.toJsonFields = .ok c.override_selection_bg :=
    parseOptField_of_lookup parseColor colorJson _ _ _ rfl parseColor_colorJson colorJson_ne_null
  have h17 : parseOptField parseColor "override_selection_stroke_color" c.toJsonFields = .ok c.override_selection_stroke_color :=
    parseOptField_of_lookup parseColor colorJson _ _ _ rfl parseColor_colorJson colorJson_ne_null
  have h18 : parseOptField parseF32 "override_selection_stroke_width" c.toJsonFields = .ok c.override_selection_stroke_width :=
    parseOptField_of_lookup parseF32 f32Json _ _ _ rfl parseF32_f32Json f32Json_ne_null
  have h19 : parseOptField parseColor "override_widget_noninteractive_bg_fill" c.toJsonFields = .ok c.override_widget_noninteractive_bg_fill :=
    parseOptField_of_lookup parseColor colorJson _ _ _ rfl parseColor_colorJson colorJson_ne_null
  have h20 : parseOptField parseColor "override_widget_noninteractive_weak_bg_fill" c.toJsonFields = .ok c.override_widget_noninteractive_weak_bg_fill :=
    parseOptField_of_lookup parseColor colorJson _ _ _ rfl parseColor_colorJson colorJson_ne_null
  have h21 : parseOptField parseColor "override_widget_noninteractive_bg_stroke_color" c.toJsonFields = .ok c.override_widget_noninteractive_bg_stroke_color :=
    parseOptField_of_lookup parseColor colorJson _ _ _ rfl parseColor_colorJson colorJson_ne_null
  have h22 : parseOptField parseF32 "override_widget_noninteractive_bg_stroke_width" c.toJsonFields = .ok c.override_widget_noninteractive_bg_stroke_width :=
    parseOptField_of_lookup parseF32 f32Json _ _ _ rfl parseF32_f32Json f32Json_ne_null
  have h23 : parseOptField parseU8 "override_widget_noninteractive_corner_radius" c.toJsonFields = .ok c.override_widget_noninteractive_corner_radius :=
    parseOptField_of_lookup parseU8 u8Json _ _ _ rfl parseU8_u8Json u8Json_ne_null
  have h24 : parseOptField parseColor "override_widget_noninteractive_fg_stroke_color" c.toJsonFields = .ok c.override_widget_noninteractive_fg_stroke_color :=
    parseOptField_of_lookup parseColor colorJson _ _ _ rfl parseColor_colorJson colorJson_ne_null
  have h25 : parseOptField parseF32 "override_widget_noninteractive_fg_stroke_width" c.toJsonFields = .ok c.override_widget_noninteractive_fg_stroke_width :=
    parseOptField_of_lookup parseF32 f32Json _ _ _ rfl parseF32_f32Json f32Json_ne_null
  have h26 : parseOptField parseF32 "override_widget_noninteractive_expansion" c.toJsonFields = .ok c.override_widget_noninteractive_expansion :=
    parseOptField_of_lookup parseF32 f32Json _ _ _ rfl parseF32_f32Json f32Json_ne_null
  have h27 : parseOptField parseColor "override_widget_inactive_bg_fill" c.toJsonFields = .ok c.override_widget_inactive_bg_fill :=
    parseOptField_of_lookup parseColor colorJson _ _ _ rfl parseColor_colorJson colorJson_ne_null
  have h28 : parseOptField parseColor "override_widget_inactive_weak_bg_fill" c.toJsonFields = .ok c.override_widget_inactive_weak_bg_fill :=
    parseOptField_of_lookup parseColor colorJson _ _ _ rfl parseColor_colorJson colorJson_ne_null
  have h29 : parseOptField parseColor "override_widget_inactive_bg_stroke_color" c.toJsonFields = .ok c.override_widget_inactive_bg_stroke_color :=
    parseOptField_of_lookup parseColor colorJson _ _ _ rfl parseColor_colorJson colorJson_ne_null
  have h30 : parseOptField parseF32 "override_widget_inactive_bg_stroke_width" c.toJsonFields = .ok c.override_widget_inactive_bg_stroke_width :=
    parseOptField_of_lookup parseF32 f32Json _ _ _ rfl parseF32_f32Json f32Json_ne_null
  have h31 : parseOptField parseU8 "override_widget_inactive_corner_radius" c.toJsonFields = .ok c.override_widget_inactive_corner_radius :=
    parseOptField_of_lookup parseU8 u8Json _ _ _ rfl parseU8_u8Json u8Json_ne_null
  have h32 : parseOptField parseColor "override_widget_inactive_fg_stroke_color" c.toJsonFields = .ok c.override_widget_inactive_fg_stroke_color :=
    parseOptField_of_lookup parseColor colorJson _ _ _ rfl parseColor_colorJson colorJson_ne_null
  have h33 : parseOptField parseF32 "override_widget_inactive_fg_stroke_width" c.toJsonFields = .ok c.override_widget_inactive_fg_stroke_width :=
    parseOptField_of_lookup parseF32 f32Json _ _ _ rfl parseF32_f32Json f32Json_ne_null
  have h34 : parseOptField parseF32 "override_widget_inactive_expansion" c.toJsonFields = .ok c.override_widget_inactive_expansion :=
    parseOptField_of_lookup parseF32 f32Json _ _ _ rfl parseF32_f32Json f32Json_ne_null
  have h35 : parseOptField parseColor "override_widget_hovered_bg_fill" c.toJsonFields = .ok c.override_widget_hovered_bg_fill :=
    parseOptField_of_lookup parseColor colorJson _ _ _ rfl parseColor_colorJson colorJson_ne_null
  have h36 : parseOptField parseColor "override_widget_hovered_weak_bg_fill" c.toJsonFields = .ok c.override_widget_hovered_weak_bg_fill :=
    parseOptField_of_lookup parseColor colorJson _ _ _ rfl parseColor_colorJson colorJson_ne_null
  have h37 : parseOptField parseColor "override_widget_hovered_bg_stroke_color" c.toJsonFields = .ok c.override_widget_hovered_bg_stroke_color :=
    parseOptField_of_lookup parseColor colorJson _ _ _ rfl parseColor_colorJson colorJson_ne_null
  have h38 : parseOptField parseF32 "override_widget_hovered_bg_stroke_width" c.toJsonFields = .ok c.override_widget_hovered_bg_stroke_width :=
    parseOptField_of_lookup parseF32 f32Json _ _ _ rfl parseF32_f32Json f32Json_ne_null
  have h39 : parseOptField parseU8 "override_widget_hovered_corner_radius" c.toJsonFields = .ok c.override_widget_hovered_corner_radius :=
    parseOptField_of_lookup parseU8 u8Json _ _ _ rfl parseU8_u8Json u8Json_ne_null
  have h40 : parseOptField parseColor "override_widget_hovered_fg_stroke_color" c.toJsonFields = .ok c.override_widget_hovered_fg_stroke_color :=
    parseOptField_of_lookup parseColor colorJson _ _ _ rfl parseColor_colorJson colorJson_ne_null
  have h41 : parseOptField parseF32 "override_widget_hovered_fg_stroke_width" c.toJsonFields = .ok c.override_widget_hovered_fg_stroke_width :=
    parseOptField_of_lookup parseF32 f32Json _ _ _ rfl parseF32_f32Json f32Json_ne_null
  have h42 : parseOptField parseF32 "override_widget_hovered_expansion" c.toJsonFields = .ok c.override_widget_hovered_expansion :=
    parseOptField_of_lookup parseF32 f32Json _ _ _ rfl parseF32_f32Json f32Json_ne_null
  have h43 : parseOptField parseColor "override_widget_active_bg_fill" c.toJsonFields = .ok c.override_widget_active_bg_fill :=
    parseOptField_of_lookup parseColor colorJson _ _ _ rfl parseColor_colorJson colorJson_ne_null
  have h44 : parseOptField parseColor "override_widget_active_weak_bg_fill" c.toJsonFields = .ok c.override_widget_active_weak_bg_fill :=
    parseOptField_of_lookup parseColor colorJson _ _ _ rfl parseColor_colorJson colorJson_ne_null
  have h45 : parseOptField parseColor "override_widget_active_bg_stroke_color" c.toJsonFields = .ok c.override_widget_active_bg_stroke_color :=
    parseOptField_of_lookup parseColor colorJson _ _ _ rfl parseColor_colorJson colorJson_ne_null
  have h46 : parseOptField parseF32 "override_widget_active_bg_stroke_width" c.toJsonFields = .ok c.override_widget_active_bg_stroke_width :=
    parseOptField_of_lookup parseF32 f32Json _ _ _ rfl parseF32_f32Json f32Json_ne_null
  have h47 : parseOptField parseU8 "override_widget_active_corner_radius" c.toJsonFields = .ok c.override_widget_active_corner_radius :=
    parseOptField_of_lookup parseU8 u8Json _ _ _ rfl parseU8_u8Json u8Json_ne_null
  have h48 : parseOptField parseColor "override_widget_active_fg_stroke_color" c.toJsonFields = .ok c.override_widget_active_fg_stroke_color :=
    parseOptField_of_lookup parseColor colorJson _ _ _ rfl parseColor_colorJson colorJson_ne_null
  have h49 : parseOptField parseF32 "override_widget_active_fg_stroke_width" c.toJsonFields = .ok c.override_widget_active_fg_stroke_width :=
    parseOptField_of_lookup parseF32 f32Json _ _ _ rfl parseF32_f32Json f32Json_ne_null
  have h50 : parseOptField parseF32 "override_widget_active_expansion" c.toJsonFields = .ok c.override_widget_active_expansion :=
    parseOptField_of_lookup parseF32 f32Json _ _ _ rfl parseF32_f32Json f32Json_ne_null
  have h51 : parseOptField parseColor "override_widget_open_bg_fill" c.toJsonFields = .ok c.override_widget_open_bg_fill :=
    parseOptField_of_lookup parseColor colorJson _ _ _ rfl parseColor_colorJson colorJson_ne_null
  have h52 : parseOptField parseColor "override_widget_open_weak_bg_fill" c.toJsonFields = .ok c.override_widget_open_weak_bg_fill :=
    parseOptField_of_lookup parseColor colorJson _ _ _ rfl parseColor_colorJson colorJson_ne_null
  have h53 : parseOptField parseColor "override_widget_open_bg_stroke_color" c.toJsonFields = .ok c.override_widget_open_bg_stroke_color :=
    parseOptField_of_lookup parseColor colorJson _ _ _ rfl parseColor_colorJson colorJson_ne_null
  have h54 : parseOptField parseF32 "override_widget_open_bg_stroke_width" c.toJsonFields = .ok c.override_widget_open_bg_stroke_width :=
    parseOptField_of_lookup parseF32 f32Json _ _ _ rfl parseF32_f32Json f32Json_ne_null
  have h55 : parseOptField parseU8 "override_widget_open_corner_radius" c.toJsonFields = .ok c.override_widget_open_corner_radius :=
    parseOptField_of_lookup parseU8 u8Json _ _ _ rfl parseU8_u8Json u8Json_ne_null
  have h56 : parseOptField parseColor "override_widget_open_fg_stroke_color" c.toJsonFields = .ok c.override_widget_open_fg_stroke_color :=
    parseOptField_of_lookup parseColor colorJson _ _ _ rfl parseColor_colorJson colorJson_ne_null
  have h57 : parseOptField parseF32 "override_widget_open_fg_stroke_width" c.toJsonFields = .ok c.override_widget_open_fg_stroke_width :=
    parseOptField_of_lookup parseF32 f32Json _ _ _ rfl parseF32_f32Json f32Json_ne_null
  have h58 : parseOptField parseF32 "override_widget_open_expansion" c.toJsonFields = .ok c.override_widget_open_expansion :=
    parseOptField_of_lookup parseF32 f32Json _ _ _ rfl parseF32_f32Json f32Json_ne_null
  have h59 : parseOptField parseF32 "override_resize_corner_size" c.toJsonFields = .ok c.override_resize_corner_size :=
    parseOptField_of_lookup parseF32 f32Json _ _ _ rfl parseF32_f32Json f32Json_ne_null
  have h60 : parseOptField parseF32 "override_text_cursor_width" c.toJsonFields = .ok c.override_text_cursor_width :=
    parseOptField_of_lookup parseF32 f32Json _ _ _ rfl parseF32_f32Json f32Json_ne_null
  have h61 : parseOptField parseF32 "override_clip_rect_margin" c.toJsonFields = .ok c.override_clip_rect_margin :=
    parseOptField_of_lookup parseF32 f32Json _ _ _ rfl parseF32_f32Json f32Json_ne_null
  have h62 : parseOptField parseBool "override_button_frame" c.toJsonFields = .ok c.override_button_frame :=
    parseOptField_of_lookup parseBool boolJson _ _ _ rfl parseBool_boolJson boolJson_ne_null
  have h63 : parseOptField parseBool "override_collapsing_header_frame" c.toJsonFields = .ok c.override_collapsing_header_frame :=
    parseOptField_of_lookup parseBool boolJson _ _ _ rfl parseBool_boolJson boolJson_ne_null
  have h64 : parseOptField parseBool "override_indent_has_left_vline" c.toJsonFields = .ok c.override_indent_has_left_vline :=
    parseOptField_of_lookup parseBool boolJson _ _ _ rfl parseBool_boolJson boolJson_ne_null
  have h65 : parseOptField parseBool "override_striped" c.toJsonFields = .ok c.override_striped :=
    parseOptField_of_lookup parseBool boolJson _ _ _ rfl parseBool_boolJson boolJson_ne_null
  have h66 : parseOptField parseBool "override_slider_trailing_fill" c.toJsonFields = .ok c.override_slider_trailing_fill :=
    parseOptField_of_lookup parseBool boolJson _ _ _ rfl parseBool_boolJson boolJson_ne_null
  show ThemeConfig.fromJson (.obj c.toJsonFields) = .ok c
  simp only [ThemeConfig.fromJson, ok_bind, hname, hdark, h1, h2, h3, h4, h5, h6, h7, h8, h9, h10, h11, h12, h13, h14, h15, h16, h17, h18, h19, h20, h21, h22, h23, h24, h25, h26, h27, h28, h29, h30, h31, h32, h33, h34, h35, h36, h37, h38, h39, h40, h41, h42, h43, h44, h45, h46, h47, h48, h49, h50, h51, h52, h53, h54, h55, h56, h57, h58, h59, h60, h61, h62, h63, h64, h65, h66]

/-- Success test for the `Except` results of the deserializer. -/
def isOkE {α : Type} : Except String α → Bool
  | .ok _ => true
  | .error _ => false

/-- Spec-side schema test: a present color value must be a four-element array
of unsigned bytes (the spec's "4-element array of unsigned bytes"). -/
def jsonIsColor : Json → Bool
  | .arr [.num r, .num g, .num b, .num a] => decide (r < 256 ∧ g < 256 ∧ b < 256 ∧ a < 256)
  | _ => false

/-- Spec-side schema test: a present float value must be a JSON number. -/
def jsonIsNum : Json → Bool
  | .num _ => true
  | _ => false

/-- Spec-side schema test: a present radius/shadow value must be a JSON
integer in [0,255]. -/
def jsonIsU8 : Json → Bool
  | .num n => decide (n < 256)
  | _ => false

/-- Spec-side schema test: a present flag value must be a JSON boolean. -/
def jsonIsBool : Json → Bool
  | .bool _ => true
  | _ => false

/-- Spec-side schema test: the `name` value must be a JSON string. -/
def jsonIsString : Json → Bool
  | .str _ => true
  | _ => false

/-- Spec-side acceptance of one optional field: absent keys inherit, `null`
(the serializer's encoding of `None`) inherits, and any other value must have
the field's declared type. -/
def optFieldOk (shape : Json → Bool) (key : String)
    (kvs : List (String × Json)) : Bool :=
  match lookupJson key kvs with
  | none => true
  | some .null => true
  | some v => shape v

/-- Spec-side acceptance of a required field: the key must be present with the
declared type. -/
def reqFieldOk (shape : Json → Bool) (key : String)
    (kvs : List (String × Json)) : Bool :=
  match lookupJson key kvs with
  | none => false
  | some v => shape v

/-- Spec-side description of the documents `load` accepts, following the
spec's words: a JSON object with required string `name` and boolean
`dark_mode`, in which every known override key, when present, carries a
value of its declared optional type; unknown keys are ignored. -/
def specThemeDocAccepted : Json → Bool
  | .obj kvs =>
    reqFieldOk jsonIsString "name" kvs &&
          (reqFieldOk jsonIsBool "dark_mode" kvs &&
          (optFieldOk jsonIsColor "override_text_color" kvs &&
          (optFieldOk jsonIsColor "override_weak_text_color" kvs &&
          (optFieldOk jsonIsColor "override_hyperlink_color" kvs &&
          (optFieldOk jsonIsColor "override_faint_bg_color" kvs &&
          (optFieldOk jsonIsColor "override_extreme_bg_color" kvs &&
          (optFieldOk jsonIsColor "override_code_bg_color" kvs &&
          (optFieldOk jsonIsColor "override_warn_fg_color" kvs &&
          (optFieldOk jsonIsColor "override_error_fg_color" kvs &&
          (optFieldOk jsonIsColor "override_window_fill" kvs &&
          (optFieldOk jsonIsColor "override_window_stroke_color" kvs &&
          (optFieldOk jsonIsNum "override_window_stroke_width" kvs &&
          (optFieldOk jsonIsU8 "override_window_corner_radius" kvs &&
          (optFieldOk jsonIsU8 "override_window_shadow_size" kvs &&
          (optFieldOk jsonIsColor "override_panel_fill" kvs &&
          (optFieldOk jsonIsU8 "override_popup_shadow_size" kvs &&
          (optFieldOk jsonIsColor "override_selection_bg" kvs &&
          (optFieldOk jsonIsColor "override_selection_stroke_color" kvs &&
          (optFieldOk jsonIsNum "override_selection_stroke_width" kvs &&
          (optFieldOk jsonIsColor "override_widget_noninteractive_bg_fill" kvs &&
          (optFieldOk jsonIsColor "override_widget_noninteractive_weak_bg_fill" kvs &&
          (optFieldOk jsonIsColor "override_widget_noninteractive_bg_stroke_color" kvs &&
          (optFieldOk jsonIsNum "override_widget_noninteractive_bg_stroke_width" kvs &&
          (optFieldOk jsonIsU8 "override_widget_noninteractive_corner_radius" kvs &&
          (optFieldOk jsonIsColor "override_widget_noninteractive_fg_stroke_color" kvs &&
          (optFieldOk jsonIsNum "override_widget_noninteractive_fg_stroke_width" kvs &&
          (optFieldOk jsonIsNum "override_widget_noninteractive_expansion" kvs &&
          (optFieldOk jsonIsColor "override_widget_inactive_bg_fill" kvs &&
          (optFieldOk jsonIsColor "override_widget_inactive_weak_bg_fill" kvs &&
          (optFieldOk jsonIsColor "override_widget_inactive_bg_stroke_color" kvs &&
          (optFieldOk jsonIsNum "override_widget_inactive_bg_stroke_width" kvs &&
          (optFieldOk jsonIsU8 "override_widget_inactive_corner_radius" kvs &&
          (optFieldOk jsonIsColor "override_widget_inactive_fg_stroke_color" kvs &&
          (optFieldOk jsonIsNum "override_widget_inactive_fg_stroke_width" kvs &&
          (optFieldOk jsonIsNum "override_widget_inactive_expansion" kvs &&
          (optFieldOk jsonIsColor "override_widget_hovered_bg_fill" kvs &&
          (optFieldOk jsonIsColor "override_widget_hovered_weak_bg_fill" kvs &&
          (optFieldOk jsonIsColor "override_widget_hovered_bg_stroke_color" kvs &&
          (optFieldOk jsonIsNum "override_widget_hovered_bg_stroke_width" kvs &&
          (optFieldOk jsonIsU8 "override_widget_hovered_corner_radius" kvs &&
          (optFieldOk jsonIsColor "override_widget_hovered_fg_stroke_color" kvs &&
          (optFieldOk jsonIsNum "override_widget_hovered_fg_stroke_width" kvs &&
          (optFieldOk jsonIsNum "override_widget_hovered_expansion" kvs &&
          (optFieldOk jsonIsColor "override_widget_active_bg_fill" kvs &&
          (optFieldOk jsonIsColor "override_widget_active_weak_bg_fill" kvs &&
          (optFieldOk jsonIsColor "override_widget_active_bg_stroke_color" kvs &&
          (optFieldOk jsonIsNum "override_widget_active_bg_stroke_width" kvs &&
          (optFieldOk jsonIsU8 "override_widget_active_corner_radius" kvs &&
          (optFieldOk jsonIsColor "override_widget_active_fg_stroke_color" kvs &&
          (optFieldOk jsonIsNum "override_widget_active_fg_stroke_width" kvs &&
          (optFieldOk jsonIsNum "override_widget_active_expansion" kvs &&
          (optFieldOk jsonIsColor "override_widget_open_bg_fill" kvs &&
          (optFieldOk jsonIsColor "override_widget_open_weak_bg_fill" kvs &&
          (optFieldOk jsonIsColor "override_widget_open_bg_stroke_color" kvs &&
          (optFieldOk jsonIsNum "override_widget_open_bg_stroke_width" kvs &&
          (optFieldOk jsonIsU8 "override_widget_open_corner_radius" kvs &&
          (optFieldOk jsonIsColor "override_widget_open_fg_stroke_color" kvs &&
          (optFieldOk jsonIsNum "override_widget_open_fg_stroke_width" kvs &&
          (optFieldOk jsonIsNum "override_widget_open_expansion" kvs &&
          (optFieldOk jsonIsNum "override_resize_corner_size" kvs &&
          (optFieldOk jsonIsNum "override_text_cursor_width" kvs &&
          (optFieldOk jsonIsNum "override_clip_rect_margin" kvs &&
          (optFieldOk jsonIsBool "override_button_frame" kvs &&
          (optFieldOk jsonIsBool "override_collapsing_header_frame" kvs &&
          (optFieldOk jsonIsBool "override_indent_has_left_vline" kvs &&
          (optFieldOk jsonIsBool "override_striped" kvs &&
          (optFieldOk jsonIsBool "override_slider_trailing_fill" kvs)))))))))))))))))))))))))))))))))))))))))))))))))))))))))))))))))))
  | _ => false

/-- Computation rule for `isOkE` on a success value. -/
theorem isOkE_ok {α : Type} (v : α) : isOkE (Except.ok v) = true :=
  rfl

/-- An `Except` value is `ok` for some payload exactly when `isOkE` holds. -/
theorem exists_ok_iff {α : Type} (e : Except String α) :
    (∃ v, e = .ok v) ↔ isOkE e = true := by
  cases e <;> simp [isOkE]

/-- Success of a bind in the `Except` monad, in existential form. -/
theorem isOkE_bind {α β : Type} (a : Except String α) (f : α → Except String β) :
    (isOkE (a >>= f) = true) ↔ ∃ v, a = .ok v ∧ isOkE (f v) = true := by
  cases a <;> simp [isOkE, Bind.bind, Except.bind]

/-- Mapping a function over an `Except` value preserves success. -/
theorem isOkE_map {α β : Type} (f : α → β) (e : Except String α) :
    isOkE (Except.map f e) = isOkE e := by
  cases e <;> rfl

/-- The color parser succeeds exactly on the spec's color schema. -/
theorem isOkE_parseColor (j : Json) : isOkE (parseColor j) = jsonIsColor j := by
  unfold parseColor jsonIsColor
  split
  · rename_i r g b a
    by_cases h : r < 256 ∧ g < 256 ∧ b < 256 ∧ a < 256
    · rw [dif_pos h]
      simp [isOkE, h]
    · rw [dif_neg h]
      simp [isOkE, h]
  · rfl

/-- The float parser succeeds exactly on JSON numbers. -/
theorem isOkE_parseF32 (j : Json) : isOkE (parseF32 j) = jsonIsNum j := by
  unfold parseF32 jsonIsNum
  split
  · rfl
  · rfl

/-- The byte parser succeeds exactly on in-range JSON integers. -/
theorem isOkE_parseU8 (j : Json) : isOkE (parseU8 j) = jsonIsU8 j := by
  unfold parseU8 jsonIsU8
  split
  · rename_i n
    by_cases h : n < 256
    · rw [dif_pos h]
      simp [isOkE, h]
    · rw [dif_neg h]
      simp [isOkE, h]
  · rfl

/-- The boolean parser succeeds exactly on JSON booleans. -/
theorem isOkE_parseBool (j : Json) : isOkE (parseBool j) = jsonIsBool j := by
  unfold parseBool jsonIsBool
  split
  · rfl
  · rfl

/-- The string parser succeeds exactly on JSON strings. -/
theorem isOkE_parseString (j : Json) : isOkE (parseString j) = jsonIsString j := by
  unfold parseString jsonIsString
  split
  · rfl
  · rfl

/-- Optional-field parsing succeeds exactly when the spec accepts the field,
given agreement of the payload parser with its schema test. -/
theorem isOkE_parseOptField {α : Type} (p : Json → Except String α)
    (shape : Json → Bool) (hp : ∀ j, isOkE (p j) = shape j)
    (key : String) (kvs : List (String × Json)) :
    isOkE (parseOptField p key kvs) = optFieldOk shape key kvs := by
  unfold parseOptField optFieldOk
  cases lookupJson key kvs with
  | none => rfl
  | some j =>
    cases j <;>
      first
      | rfl
      | (rw [isOkE_map]
         exact hp _)

/-- Required-field parsing succeeds exactly when the spec accepts the field,
given agreement of the payload parser with its schema test. -/
theorem isOkE_parseReqField {α : Type} (p : Json → Except String α)
    (shape : Json → Bool) (hp : ∀ j, isOkE (p j) = shape j)
    (key : String) (kvs : List (String × Json)) :
    isOkE (parseReqField p key kvs) = reqFieldOk shape key kvs := by
  unfold parseReqField reqFieldOk
  cases lookupJson key kvs with
  | none => rfl
  | some j => exact hp j

/-- Specialization of `isOkE_parseOptField` to the color payload parser. -/
theorem isOkE_parseOptColor (key : String) (kvs : List (String × Json)) :
    isOkE (parseOptField parseColor key kvs) = optFieldOk jsonIsColor key kvs :=
  isOkE_parseOptField parseColor jsonIsColor isOkE_parseColor key kvs

/-- Specialization of `isOkE_parseOptField` to the f32 payload parser. -/
theorem isOkE_parseOptF32 (key : String) (kvs : List (String × Json)) :
    isOkE (parseOptField parseF32 key kvs) = optFieldOk jsonIsNum key kvs :=
  isOkE_parseOptField parseF32 jsonIsNum isOkE_parseF32 key kvs

/-- Specialization of `isOkE_parseOptField` to the u8 payload parser. -/
theorem isOkE_parseOptU8 (key : String) (kvs : List (String × Json)) :
    isOkE (parseOptField parseU8 key kvs) = optFieldOk jsonIsU8 key kvs :=
  isOkE_parseOptField parseU8 jsonIsU8 isOkE_parseU8 key kvs

/-- Specialization of `isOkE_parseOptField` to the bool payload parser. -/
theorem isOkE_parseOptBool (key : String) (kvs : List (String × Json)) :
    isOkE (parseOptField parseBool key kvs) = optFieldOk jsonIsBool key kvs :=
  isOkE_parseOptField parseBool jsonIsBool isOkE_parseBool key kvs

/-- Specialization of `isOkE_parseReqField` to the string payload parser. -/
theorem isOkE_parseReqString (key : String) (kvs : List (String × Json)) :
    isOkE (parseReqField parseString key kvs) = reqFieldOk jsonIsString key kvs :=
  isOkE_parseReqField parseString jsonIsString isOkE_parseString key kvs

/-- Specialization of `isOkE_parseReqField` to the boolean payload parser. -/
theorem isOkE_parseReqBool (key : String) (kvs : List (String × Json)) :
    isOkE (parseReqField parseBool key kvs) = reqFieldOk jsonIsBool key kvs :=
  isOkE_parseReqField parseBool jsonIsBool isOkE_parseBool key kvs

set_option maxHeartbeats 6400000 in
/-- The deserializer succeeds exactly on the documents the spec accepts. -/
theorem isOkE_fromJson (j : Json) :
    isOkE (ThemeConfig.fromJson j) = specThemeDocAccepted j := by
  cases j <;> try rfl
  case obj kvs =>
    rw [Bool.eq_iff_iff]
    simp only [ThemeConfig.fromJson, specThemeDocAccepted, isOkE_bind, isOkE_ok,
      and_true, exists_and_right, exists_ok_iff, isOkE_parseOptColor,
      isOkE_parseOptF32, isOkE_parseOptU8, isOkE_parseOptBool,
      isOkE_parseReqString, isOkE_parseReqBool, Bool.and_eq_true]


/-- A document holding the recognized required fields plus one key unknown to
the schema. -/
def forwardCompatDoc : Json :=
  .obj [("name", .str "Custom"), ("dark_mode", .bool true), ("mystery_key", .num 42)]

/-- The same document without the unknown key. -/
def forwardCompatBaseDoc : Json :=
  .obj [("name", .str "Custom"), ("dark_mode", .bool true)]

/-- Claim C6 (deserialization errors and forward compatibility): on the JSON
value level, `load` fails exactly on the documents outside the spec's schema
(not an object, missing or mistyped `name` / `dark_mode`, or a wrongly typed
value under a known override key) -- never a silent default -- and a document
carrying recognized fields plus one unrecognized field parses successfully,
with the unrecognized field ignored. -/
theorem claim6_load_error_behavior :
    (∀ j, isOkE (ThemeConfig.fromJson j) = specThemeDocAccepted j) ∧
    ThemeConfig.fromJson forwardCompatDoc = ThemeConfig.fromJson forwardCompatBaseDoc ∧
    isOkE (ThemeConfig.fromJson forwardCompatDoc) = true :=
  ⟨isOkE_fromJson, rfl, rfl⟩

/-- The 66 recognized override keys, in struct declaration order. -/
def overrideKeys : List String :=
  ["override_text_color",
   "override_weak_text_color",
   "override_hyperlink_color",
   "override_faint_bg_color",
   "override_extreme_bg_color",
   "override_code_bg_color",
   "override_warn_fg_color",
   "override_error_fg_color",
   "override_window_fill",
   "override_window_stroke_color",
   "override_window_stroke_width",
   "override_window_corner_radius",
   "override_window_shadow_size",
   "override_panel_fill",
   "override_popup_shadow_size",
   "override_selection_bg",
   "override_selection_stroke_color",
   "override_selection_stroke_width",
   "override_widget_noninteractive_bg_fill",
   "override_widget_noninteractive_weak_bg_fill",
   "override_widget_noninteractive_bg_stroke_color",
   "override_widget_noninteractive_bg_stroke_width",
   "override_widget_noninteractive_corner_radius",
   "override_widget_noninteractive_fg_stroke_color",
   "override_widget_noninteractive_fg_stroke_width",
   "override_widget_noninteractive_expansion",
   "override_widget_inactive_bg_fill",
   "override_widget_inactive_weak_bg_fill",
   "override_widget_inactive_bg_stroke_color",
   "override_widget_inactive_bg_stroke_width",
   "override_widget_inactive_corner_radius",
   "override_widget_inactive_fg_stroke_color",
   "override_widget_inactive_fg_stroke_width",
   "override_widget_inactive_expansion",
   "override_widget_hovered_bg_fill",
   "override_widget_hovered_weak_bg_fill",
   "override_widget_hovered_bg_stroke_color",
   "override_widget_hovered_bg_stroke_width",
   "override_widget_hovered_corner_radius",
   "override_widget_hovered_fg_stroke_color",
   "override_widget_hovered_fg_stroke_width",
   "override_widget_hovered_expansion",
   "override_widget_active_bg_fill",
   "override_widget_active_weak_bg_fill",
   "override_widget_active_bg_stroke_color",
   "override_widget_active_bg_stroke_width",
   "override_widget_active_corner_radius",
   "override_widget_active_fg_stroke_color",
   "override_widget_active_fg_stroke_width",
   "override_widget_active_expansion",
   "override_widget_open_bg_fill",
   "override_widget_open_weak_bg_fill",
   "override_widget_open_bg_stroke_color",
   "override_widget_open_bg_stroke_width",
   "override_widget_open_corner_radius",
   "override_widget_open_fg_stroke_color",
   "override_widget_open_fg_stroke_width",
   "override_widget_open_expansion",
   "override_resize_corner_size",
   "override_text_cursor_width",
   "override_clip_rect_margin",
   "override_button_frame",
   "override_collapsing_header_frame",
   "override_indent_has_left_vline",
   "override_striped",
   "override_slider_trailing_fill"]

/-- Lookup distributes over list append. -/
theorem lookupJson_append (s : String) (l r : List (String × Json)) :
    lookupJson s (l ++ r)
      = match lookupJson s l with
        | some w => some w
        | none => lookupJson s r := by
  induction l with
  | nil => rfl
  | cons kv t ih =>
    rcases kv with ⟨k, v⟩
    by_cases h : k = s <;> simp [lookupJson, h, ih]

/-- Inserting an entry under a different key does not change a lookup. -/
theorem lookupJson_middle_ne (s key : String) (v : Json)
    (l r : List (String × Json)) (h : key ≠ s) :
    lookupJson s (l ++ (key, v) :: r) = lookupJson s (l ++ r) := by
  rw [lookupJson_append, lookupJson_append]
  cases lookupJson s l with
  | some w => rfl
  | none => simp [lookupJson, h]

/-- Looking up an inserted key not shadowed on its left finds the insertion. -/
theorem lookupJson_middle_self (key : String) (v : Json)
    (l r : List (String × Json)) (h : lookupJson key l = none) :
    lookupJson key (l ++ (key, v) :: r) = some v := by
  rw [lookupJson_append, h]
  simp [lookupJson]

/-- Parsing an optional field is unchanged by inserting an explicit `null`
under a key that the document does not otherwise bind. -/
theorem parseOptField_skip_null {α : Type} (p : Json → Except String α)
    (key k : String) (l r : List (String × Json))
    (hnone : lookupJson key (l ++ r) = none) :
    parseOptField p k (l ++ (key, .null) :: r) = parseOptField p k (l ++ r) := by
  by_cases hk : key = k
  · subst hk
    have hl : lookupJson key l = none := by
      rcases hcase : lookupJson key l with _ | w
      · rfl
      · rw [lookupJson_append, hcase] at hnone
        cases hnone
    unfold parseOptField
    rw [lookupJson_middle_self key _ l r hl, hnone]
  · unfold parseOptField
    rw [lookupJson_middle_ne k key _ l r hk]

/-- Parsing a required field is unchanged by inserting a `null` under any
other key. -/
theorem parseReqField_skip_null {α : Type} (p : Json → Except String α)
    (key k : String) (l r : List (String × Json)) (hk : key ≠ k) :
    parseReqField p k (l ++ (key, .null) :: r) = parseReqField p k (l ++ r) := by
  unfold parseReqField
  rw [lookupJson_middle_ne k key _ l r hk]

set_option maxHeartbeats 3200000 in
/-- Claim C10 (implicit): for every override key and every document that does
not otherwise bind it, deserializing with that key explicitly `null` gives
the same configuration as deserializing with the key omitted entirely. -/
theorem claim10_null_equals_omitted (key : String) (l r : List (String × Json))
    (hmem : key ∈ overrideKeys) (hnone : lookupJson key (l ++ r) = none) :
    ThemeConfig.fromJson (.obj (l ++ (key, .null) :: r))
      = ThemeConfig.fromJson (.obj (l ++ r)) := by
  have hkname : key ≠ "name" := by
    rintro rfl
    revert hmem
    decide
  have hkdark : key ≠ "dark_mode" := by
    rintro rfl
    revert hmem
    decide
  simp only [ThemeConfig.fromJson, parseOptField_skip_null, parseReqField_skip_null,
    hnone, hkname, hkdark, ne_eq, not_false_eq_true]

/-- Witness for C10 at the text-color key over a minimal document. -/
theorem claim10_null_equals_omitted_witness :
    "override_text_color" ∈ overrideKeys ∧
    ThemeConfig.fromJson
        (.obj ([("name", Json.str "W"), ("dark_mode", Json.bool true)]
          ++ ("override_text_color", Json.null) :: []))
      = ThemeConfig.fromJson
          (.obj ([("name", Json.str "W"), ("dark_mode", Json.bool true)] ++ [])) :=
  ⟨by decide,
   claim10_null_equals_omitted "override_text_color"
     [("name", Json.str "W"), ("dark_mode", Json.bool true)] [] (by decide) rfl⟩
/-- Presence-as-`None` test for an override field selected by its JSON key. -/
def fieldIsNone (c : ThemeConfig) (key : String) : Bool :=
  if key = "override_text_color" then c.override_text_color.isNone
  else if key = "override_weak_text_color" then c.override_weak_text_color.isNone
  else if key = "override_hyperlink_color" then c.override_hyperlink_color.isNone
  else if key = "override_faint_bg_color" then c.override_faint_bg_color.isNone
  else if key = "override_extreme_bg_color" then c.override_extreme_bg_color.isNone
  else if key = "override_code_bg_color" then c.override_code_bg_color.isNone
  else if key = "override_warn_fg_color" then c.override_warn_fg_color.isNone
  else if key = "override_error_fg_color" then c.override_error_fg_color.isNone
  else if key = "override_window_fill" then c.override_window_fill.isNone
  else if key = "override_window_stroke_color" then c.override_window_stroke_color.isNone
  else if key = "override_window_stroke_width" then c.override_window_stroke_width.isNone
  else if key = "override_window_corner_radius" then c.override_window_corner_radius.isNone
  else if key = "override_window_shadow_size" then c.override_window_shadow_size.isNone
  else if key = "override_panel_fill" then c.override_panel_fill.isNone
  else if key = "override_popup_shadow_size" then c.override_popup_shadow_size.isNone
  else if key = "override_selection_bg" then c.override_selection_bg.isNone
  else if key = "override_selection_stroke_color" then c.override_selection_stroke_color.isNone
  else if key = "override_selection_stroke_width" then c.override_selection_stroke_width.isNone
  else if key = "override_widget_noninteractive_bg_fill" then c.override_widget_noninteractive_bg_fill.isNone
  else if key = "override_widget_noninteractive_weak_bg_fill" then c.override_widget_noninteractive_weak_bg_fill.isNone
  else if key = "override_widget_noninteractive_bg_stroke_color" then c.override_widget_noninteractive_bg_stroke_color.isNone
  else if key = "override_widget_noninteractive_bg_stroke_width" then c.override_widget_noninteractive_bg_stroke_width.isNone
  else if key = "override_widget_noninteractive_corner_radius" then c.override_widget_noninteractive_corner_radius.isNone
  else if key = "override_widget_noninteractive_fg_stroke_color" then c.override_widget_noninteractive_fg_stroke_color.isNone
  else if key = "override_widget_noninteractive_fg_stroke_width" then c.override_widget_noninteractive_fg_stroke_width.isNone
  else if key = "override_widget_noninteractive_expansion" then c.override_widget_noninteractive_expansion.isNone
  else if key = "override_widget_inactive_bg_fill" then c.override_widget_inactive_bg_fill.isNone
  else if key = "override_widget_inactive_weak_bg_fill" then c.override_widget_inactive_weak_bg_fill.isNone
  else if key = "override_widget_inactive_bg_stroke_color" then c.override_widget_inactive_bg_stroke_color.isNone
  else if key = "override_widget_inactive_bg_stroke_width" then c.override_widget_inactive_bg_stroke_width.isNone
  else if key = "override_widget_inactive_corner_radius" then c.override_widget_inactive_corner_radius.isNone
  else if key = "override_widget_inactive_fg_stroke_color" then c.override_widget_inactive_fg_stroke_color.isNone
  else if key = "override_widget_inactive_fg_stroke_width" then c.override_widget_inactive_fg_stroke_width.isNone
  else if key = "override_widget_inactive_expansion" then c.override_widget_inactive_expansion.isNone
  else if key = "override_widget_hovered_bg_fill" then c.override_widget_hovered_bg_fill.isNone
  else if key = "override_widget_hovered_weak_bg_fill" then c.override_widget_hovered_weak_bg_fill.isNone
  else if key = "override_widget_hovered_bg_stroke_color" then c.override_widget_hovered_bg_stroke_color.isNone
  else if key = "override_widget_hovered_bg_stroke_width" then c.override_widget_hovered_bg_stroke_width.isNone
  else if key = "override_widget_hovered_corner_radius" then c.override_widget_hovered_corner_radius.isNone
  else if key = "override_widget_hovered_fg_stroke_color" then c.override_widget_hovered_fg_stroke_color.isNone
  else if key = "override_widget_hovered_fg_stroke_width" then c.override_widget_hovered_fg_stroke_width.isNone
  else if key = "override_widget_hovered_expansion" then c.override_widget_hovered_expansion.isNone
  else if key = "override_widget_active_bg_fill" then c.override_widget_active_bg_fill.isNone
  else if key = "override_widget_active_weak_bg_fill" then c.override_widget_active_weak_bg_fill.isNone
  else if key = "override_widget_active_bg_stroke_color" then c.override_widget_active_bg_stroke_color.isNone
  else if key = "override_widget_active_bg_stroke_width" then c.override_widget_active_bg_stroke_width.isNone
  else if key = "override_widget_active_corner_radius" then c.override_widget_active_corner_radius.isNone
  else if key = "override_widget_active_fg_stroke_color" then c.override_widget_active_fg_stroke_color.isNone
  else if key = "override_widget_active_fg_stroke_width" then c.override_widget_active_fg_stroke_width.isNone
  else if key = "override_widget_active_expansion" then c.override_widget_active_expansion.isNone
  else if key = "override_widget_open_bg_fill" then c.override_widget_open_bg_fill.isNone
  else if key = "override_widget_open_weak_bg_fill" then c.override_widget_open_weak_bg_fill.isNone
  else if key = "override_widget_open_bg_stroke_color" then c.override_widget_open_bg_stroke_color.isNone
  else if key = "override_widget_open_bg_stroke_width" then c.override_widget_open_bg_stroke_width.isNone
  else if key = "override_widget_open_corner_radius" then c.override_widget_open_corner_radius.isNone
  else if key = "override_widget_open_fg_stroke_color" then c.override_widget_open_fg_stroke_color.isNone
  else if key = "override_widget_open_fg_stroke_width" then c.override_widget_open_fg_stroke_width.isNone
  else if key = "override_widget_open_expansion" then c.override_widget_open_expansion.isNone
  else if key = "override_resize_corner_size" then c.override_resize_corner_size.isNone
  else if key = "override_text_cursor_width" then c.override_text_cursor_width.isNone
  else if key = "override_clip_rect_margin" then c.override_clip_rect_margin.isNone
  else if key = "override_button_frame" then c.override_button_frame.isNone
  else if key = "override_collapsing_header_frame" then c.override_collapsing_header_frame.isNone
  else if key = "override_indent_has_left_vline" then c.override_indent_has_left_vline.isNone
  else if key = "override_striped" then c.override_striped.isNone
  else if key = "override_slider_trailing_fill" then c.override_slider_trailing_fill.isNone
  else false

/-- Null test for the value stored under a key of a serialized document. -/
def isNullAt (key : String) (kvs : List (String × Json)) : Bool :=
  match lookupJson key kvs with
  | some .null => true
  | _ => false

set_option maxHeartbeats 3200000 in
/-- Every override field that is `None` is serialized as an explicit `null`
under its key (serde writes `None` as `null`; nothing is omitted). -/
theorem toJsonFields_null_of_none (c : ThemeConfig) (key : String)
    (hmem : key ∈ overrideKeys) (hnone : fieldIsNone c key = true) :
    lookupJson key c.toJsonFields = some Json.null := by
  fin_cases hmem
  · have e : c.override_text_color = none := Option.isNone_iff_eq_none.mp hnone
    rw [show lookupJson "override_text_color" c.toJsonFields
          = some (optJson colorJson c.override_text_color) from rfl, e]
    rfl
  · have e : c.override_weak_text_color = none := Option.isNone_iff_eq_none.mp hnone
    rw [show lookupJson "override_weak_text_color" c.toJsonFields
          = some (optJson colorJson c.override_weak_text_color) from rfl, e]
    rfl
  · have e : c.override_hyperlink_color = none := Option.isNone_iff_eq_none.mp hnone
    rw [show lookupJson "override_hyperlink_color" c.toJsonFields
          = some (optJson colorJson c.override_hyperlink_color) from rfl, e]
    rfl
  · have e : c.override_faint_bg_color = none := Option.isNone_iff_eq_none.mp hnone
    rw [show lookupJson "override_faint_bg_color" c.toJsonFields
          = some (optJson colorJson c.override_faint_bg_color) from rfl, e]
    rfl
  · have e : c.override_extreme_bg_color = none := Option.isNone_iff_eq_none.mp hnone
    rw [show lookupJson "override_extreme_bg_color" c.toJsonFields
          = some (optJson colorJson c.override_extreme_bg_color) from rfl, e]
    rfl
  · have e : c.override_code_bg_color = none := Option.isNone_iff_eq_none.mp hnone
    rw [show lookupJson "override_code_bg_color" c.toJsonFields
          = some (optJson colorJson c.override_code_bg_color) from rfl, e]
    rfl
  · have e : c.override_warn_fg_color = none := Option.isNone_iff_eq_none.mp hnone
    rw [show lookupJson "override_warn_fg_color" c.toJsonFields
          = some (optJson colorJson c.override_warn_fg_color) from rfl, e]
    rfl
  · have e : c.override_error_fg_color = none := Option.isNone_iff_eq_none.mp hnone
    rw [show lookupJson "override_error_fg_color" c.toJsonFields
          = some (optJson colorJson c.override_error_fg_color) from rfl, e]
    rfl
  · have e : c.override_window_fill = none := Option.isNone_iff_eq_none.mp hnone
    rw [show lookupJson "override_window_fill" c.toJsonFields
          = some (optJson colorJson c.override_window_fill) from rfl, e]
    rfl
  · have e : c.override_window_stroke_color = none := Option.isNone_iff_eq_none.mp hnone
    rw [show lookupJson "override_window_stroke_color" c.toJsonFields
          = some (optJson colorJson c.override_window_stroke_color) from rfl, e]
    rfl
  · have e : c.override_window_stroke_width = none := Option.isNone_iff_eq_none.mp hnone
    rw [show lookupJson "override_window_stroke_width" c.toJsonFields
          = some (optJson f32Json c.override_window_stroke_width) from rfl, e]
    rfl
  · have e : c.override_window_corner_radius = none := Option.isNone_iff_eq_none.mp hnone
    rw [show lookupJson "override_window_corner_radius" c.toJsonFields
          = some (optJson u8Json c.override_window_corner_radius) from rfl, e]
    rfl
  · have e : c.override_window_shadow_size = none := Option.isNone_iff_eq_none.mp hnone
    rw [show lookupJson "override_window_shadow_size" c.toJsonFields
          = some (optJson u8Json c.override_window_shadow_size) from rfl, e]
    rfl
  · have e : c.override_panel_fill = none := Option.isNone_iff_eq_none.mp hnone
    rw [show lookupJson "override_panel_fill" c.toJsonFields
          = some (optJson colorJson c.override_panel_fill) from rfl, e]
    rfl
  · have e : c.override_popup_shadow_size = none := Option.isNone_iff_eq_none.mp hnone
    rw [show lookupJson "override_popup_shadow_size" c.toJsonFields
          = some (optJson u8Json c.override_popup_shadow_size) from rfl, e]
    rfl
  · have e : c.override_selection_bg = none := Option.isNone_iff_eq_none.mp hnone
    rw [show lookupJson "override_selection_bg" c.toJsonFields
          = some (optJson colorJson c.override_selection_bg) from rfl, e]
    rfl
  · have e : c.override_selection_stroke_color = none := Option.isNone_iff_eq_none.mp hnone
    rw [show lookupJson "override_selection_stroke_color" c.toJsonFields
          = some (optJson colorJson c.override_selection_stroke_color) from rfl, e]
    rfl
  · have e : c.override_selection_stroke_width = none := Option.isNone_iff_eq_none.mp hnone
    rw [show lookupJson "override_selection_stroke_width" c.toJsonFields
          = some (optJson f32Json c.override_selection_stroke_width) from rfl, e]
    rfl
  · have e : c.override_widget_noninteractive_bg_fill = none := Option.isNone_iff_eq_none.mp hnone
    rw [show lookupJson "override_widget_noninteractive_bg_fill" c.toJsonFields
          = some (optJson colorJson c.override_widget_noninteractive_bg_fill) from rfl, e]
    rfl
  · have e : c.override_widget_noninteractive_weak_bg_fill = none := Option.isNone_iff_eq_none.mp hnone
    rw [show lookupJson "override_widget_noninteractive_weak_bg_fill" c.toJsonFields
          = some (optJson colorJson c.override_widget_noninteractive_weak_bg_fill) from rfl, e]
    rfl
  · have e : c.override_widget_noninteractive_bg_stroke_color = none := Option.isNone_iff_eq_none.mp hnone
    rw [show lookupJson "override_widget_noninteractive_bg_stroke_color" c.toJsonFields
          = some (optJson colorJson c.override_widget_noninteractive_bg_stroke_color) from rfl, e]
    rfl
  · have e : c.override_widget_noninteractive_bg_stroke_width = none := Option.isNone_iff_eq_none.mp hnone
    rw [show lookupJson "override_widget_noninteractive_bg_stroke_width" c.toJsonFields
          = some (optJson f32Json c.override_widget_noninteractive_bg_stroke_width) from rfl, e]
    rfl
  · have e : c.override_widget_noninteractive_corner_radius = none := Option.isNone_iff_eq_none.mp hnone
    rw [show lookupJson "override_widget_noninteractive_corner_radius" c.toJsonFields
          = some (optJson u8Json c.override_widget_noninteractive_corner_radius) from rfl, e]
    rfl
  · have e : c.override_widget_noninteractive_fg_stroke_color = none := Option.isNone_iff_eq_none.mp hnone
    rw [show lookupJson "override_widget_noninteractive_fg_stroke_color" c.toJsonFields
          = some (optJson colorJson c.override_widget_noninteractive_fg_stroke_color) from rfl, e]
    rfl
  · have e : c.override_widget_noninteractive_fg_stroke_width = none := Option.isNone_iff_eq_none.mp hnone
    rw [show lookupJson "override_widget_noninteractive_fg_stroke_width" c.toJsonFields
          = some (optJson f32Json c.override_widget_noninteractive_fg_stroke_width) from rfl, e]
    rfl
  · have e : c.override_widget_noninteractive_expansion = none := Option.isNone_iff_eq_none.mp hnone
    rw [show lookupJson "override_widget_noninteractive_expansion" c.toJsonFields
          = some (optJson f32Json c.override_widget_noninteractive_expansion) from rfl, e]
    rfl
  · have e : c.override_widget_inactive_bg_fill = none := Option.isNone_iff_eq_none.mp hnone
    rw [show lookupJson "override_widget_inactive_bg_fill" c.toJsonFields
          = some (optJson colorJson c.override_widget_inactive_bg_fill) from rfl, e]
    rfl
  · have e : c.override_widget_inactive_weak_bg_fill = none := Option.isNone_iff_eq_none.mp hnone
    rw [show lookupJson "override_widget_inactive_weak_bg_fill" c.toJsonFields
          = some (optJson colorJson c.override_widget_inactive_weak_bg_fill) from rfl, e]
    rfl
  · have e : c.override_widget_inactive_bg_stroke_color = none := Option.isNone_iff_eq_none.mp hnone
    rw [show lookupJson "override_widget_inactive_bg_stroke_color" c.toJsonFields
          = some (optJson colorJson c.override_widget_inactive_bg_stroke_color) from rfl, e]
    rfl
  · have e : c.override_widget_inactive_bg_stroke_width = none := Option.isNone_iff_eq_none.mp hnone
    rw [show lookupJson "override_widget_inactive_bg_stroke_width" c.toJsonFields
          = some (optJson f32Json c.override_widget_inactive_bg_stroke_width) from rfl, e]
    rfl
  · have e : c.override_widget_inactive_corner_radius = none := Option.isNone_iff_eq_none.mp hnone
    rw [show lookupJson "override_widget_inactive_corner_radius" c.toJsonFields
          = some (optJson u8Json c.override_widget_inactive_corner_radius) from rfl, e]
    rfl
  · have e : c.override_widget_inactive_fg_stroke_color = none := Option.isNone_iff_eq_none.mp hnone
    rw [show lookupJson "override_widget_inactive_fg_stroke_color" c.toJsonFields
          = some (optJson colorJson c.override_widget_inactive_fg_stroke_color) from rfl, e]
    rfl
  · have e : c.override_widget_inactive_fg_stroke_width = none := Option.isNone_iff_eq_none.mp hnone
    rw [show lookupJson "override_widget_inactive_fg_stroke_width" c.toJsonFields
          = some (optJson f32Json c.override_widget_inactive_fg_stroke_width) from rfl, e]
    rfl
  · have e : c.override_widget_inactive_expansion = none := Option.isNone_iff_eq_none.mp hnone
    rw [show lookupJson "override_widget_inactive_expansion" c.toJsonFields
          = some (optJson f32Json c.override_widget_inactive_expansion) from rfl, e]
    rfl
  · have e : c.override_widget_hovered_bg_fill = none := Option.isNone_iff_eq_none.mp hnone
    rw [show lookupJson "override_widget_hovered_bg_fill" c.toJsonFields
          = some (optJson colorJson c.override_widget_hovered_bg_fill) from rfl, e]
    rfl
  · have e : c.override_widget_hovered_weak_bg_fill = none := Option.isNone_iff_eq_none.mp hnone
    rw [show lookupJson "override_widget_hovered_weak_bg_fill" c.toJsonFields
          = some (optJson colorJson c.override_widget_hovered_weak_bg_fill) from rfl, e]
    rfl
  · have e : c.override_widget_hovered_bg_stroke_color = none := Option.isNone_iff_eq_none.mp hnone
    rw [show lookupJson "override_widget_hovered_bg_stroke_color" c.toJsonFields
          = some (optJson colorJson c.override_widget_hovered_bg_stroke_color) from rfl, e]
    rfl
  · have e : c.override_widget_hovered_bg_stroke_width = none := Option.isNone_iff_eq_none.mp hnone
    rw [show lookupJson "override_widget_hovered_bg_stroke_width" c.toJsonFields
          = some (optJson f32Json c.override_widget_hovered_bg_stroke_width) from rfl, e]
    rfl
  · have e : c.override_widget_hovered_corner_radius = none := Option.isNone_iff_eq_none.mp hnone
    rw [show lookupJson "override_widget_hovered_corner_radius" c.toJsonFields
          = some (optJson u8Json c.override_widget_hovered_corner_radius) from rfl, e]
    rfl
  · have e : c.override_widget_hovered_fg_stroke_color = none := Option.isNone_iff_eq_none.mp hnone
    rw [show lookupJson "override_widget_hovered_fg_stroke_color" c.toJsonFields
          = some (optJson colorJson c.override_widget_hovered_fg_stroke_color) from rfl, e]
    rfl
  · have e : c.override_widget_hovered_fg_stroke_width = none := Option.isNone_iff_eq_none.mp hnone
    rw [show lookupJson "override_widget_hovered_fg_stroke_width" c.toJsonFields
          = some (optJson f32Json c.override_widget_hovered_fg_stroke_width) from rfl, e]
    rfl
  · have e : c.override_widget_hovered_expansion = none := Option.isNone_iff_eq_none.mp hnone
    rw [show lookupJson "override_widget_hovered_expansion" c.toJsonFields
          = some (optJson f32Json c.override_widget_hovered_expansion) from rfl, e]
    rfl
  · have e : c.override_widget_active_bg_fill = none := Option.isNone_iff_eq_none.mp hnone
    rw [show lookupJson "override_widget_active_bg_fill" c.toJsonFields
          = some (optJson colorJson c.override_widget_active_bg_fill) from rfl, e]
    rfl
  · have e : c.override_widget_active_weak_bg_fill = none := Option.isNone_iff_eq_none.mp hnone
    rw [show lookupJson "override_widget_active_weak_bg_fill" c.toJsonFields
          = some (optJson colorJson c.override_widget_active_weak_bg_fill) from rfl, e]
    rfl
  · have e : c.override_widget_active_bg_stroke_color = none := Option.isNone_iff_eq_none.mp hnone
    rw [show lookupJson "override_widget_active_bg_stroke_color" c.toJsonFields
          = some (optJson colorJson c.override_widget_active_bg_stroke_color) from rfl, e]
    rfl
  · have e : c.override_widget_active_bg_stroke_width = none := Option.isNone_iff_eq_none.mp hnone
    rw [show lookupJson "override_widget_active_bg_stroke_width" c.toJsonFields
          = some (optJson f32Json c.override_widget_active_bg_stroke_width) from rfl, e]
    rfl
  · have e : c.override_widget_active_corner_radius = none := Option.isNone_iff_eq_none.mp hnone
    rw [show lookupJson "override_widget_active_corner_radius" c.toJsonFields
          = some (optJson u8Json c.override_widget_active_corner_radius) from rfl, e]
    rfl
  · have e : c.override_widget_active_fg_stroke_color = none := Option.isNone_iff_eq_none.mp hnone
    rw [show lookupJson "override_widget_active_fg_stroke_color" c.toJsonFields
          = some (optJson colorJson c.override_widget_active_fg_stroke_color) from rfl, e]
    rfl
  · have e : c.override_widget_active_fg_stroke_width = none := Option.isNone_iff_eq_none.mp hnone
    rw [show lookupJson "override_widget_active_fg_stroke_width" c.toJsonFields
          = some (optJson f32Json c.override_widget_active_fg_stroke_width) from rfl, e]
    rfl
  · have e : c.override_widget_active_expansion = none := Option.isNone_iff_eq_none.mp hnone
    rw [show lookupJson "override_widget_active_expansion" c.toJsonFields
          = some (optJson f32Json c.override_widget_active_expansion) from rfl, e]
    rfl
  · have e : c.override_widget_open_bg_fill = none := Option.isNone_iff_eq_none.mp hnone
    rw [show lookupJson "override_widget_open_bg_fill" c.toJsonFields
          = some (optJson colorJson c.override_widget_open_bg_fill) from rfl, e]
    rfl
  · have e : c.override_widget_open_weak_bg_fill = none := Option.isNone_iff_eq_none.mp hnone
    rw [show lookupJson "override_widget_open_weak_bg_fill" c.toJsonFields
          = some (optJson colorJson c.override_widget_open_weak_bg_fill) from rfl, e]
    rfl
  · have e : c.override_widget_open_bg_stroke_color = none := Option.isNone_iff_eq_none.mp hnone
    rw [show lookupJson "override_widget_open_bg_stroke_color" c.toJsonFields
          = some (optJson colorJson c.override_widget_open_bg_stroke_color) from rfl, e]
    rfl
  · have e : c.override_widget_open_bg_stroke_width = none := Option.isNone_iff_eq_none.mp hnone
    rw [show lookupJson "override_widget_open_bg_stroke_width" c.toJsonFields
          = some (optJson f32Json c.override_widget_open_bg_stroke_width) from rfl, e]
    rfl
  · have e : c.override_widget_open_corner_radius = none := Option.isNone_iff_eq_none.mp hnone
    rw [show lookupJson "override_widget_open_corner_radius" c.toJsonFields
          = some (optJson u8Json c.override_widget_open_corner_radius) from rfl, e]
    rfl
  · have e : c.override_widget_open_fg_stroke_color = none := Option.isNone_iff_eq_none.mp hnone
    rw [show lookupJson "override_widget_open_fg_stroke_color" c.toJsonFields
          = some (optJson colorJson c.override_widget_open_fg_stroke_color) from rfl, e]
    rfl
  · have e : c.override_widget_open_fg_stroke_width = none := Option.isNone_iff_eq_none.mp hnone
    rw [show lookupJson "override_widget_open_fg_stroke_width" c.toJsonFields
          = some (optJson f32Json c.override_widget_open_fg_stroke_width) from rfl, e]
    rfl
  · have e : c.override_widget_open_expansion = none := Option.isNone_iff_eq_none.mp hnone
    rw [show lookupJson "override_widget_open_expansion" c.toJsonFields
          = some (optJson f32Json c.override_widget_open_expansion) from rfl, e]
    rfl
  · have e : c.override_resize_corner_size = none := Option.isNone_iff_eq_none.mp hnone
    rw [show lookupJson "override_resize_corner_size" c.toJsonFields
          = some (optJson f32Json c.override_resize_corner_size) from rfl, e]
    rfl
  · have e : c.override_text_cursor_width = none := Option.isNone_iff_eq_none.mp hnone
    rw [show lookupJson "override_text_cursor_width" c.toJsonFields
          = some (optJson f32Json c.override_text_cursor_width) from rfl, e]
    rfl
  · have e : c.override_clip_rect_margin = none := Option.isNone_iff_eq_none.mp hnone
    rw [show lookupJson "override_clip_rect_margin" c.toJsonFields
          = some (optJson f32Json c.override_clip_rect_margin) from rfl, e]
    rfl
  · have e : c.override_button_frame = none := Option.isNone_iff_eq_none.mp hnone
    rw [show lookupJson "override_button_frame" c.toJsonFields
          = some (optJson boolJson c.override_button_frame) from rfl, e]
    rfl
  · have e : c.override_collapsing_header_frame = none := Option.isNone_iff_eq_none.mp hnone
    rw [show lookupJson "override_collapsing_header_frame" c.toJsonFields
          = some (optJson boolJson c.override_collapsing_header_frame) from rfl, e]
    rfl
  · have e : c.override_indent_has_left_vline = none := Option.isNone_iff_eq_none.mp hnone
    rw [show lookupJson "override_indent_has_left_vline" c.toJsonFields
          = some (optJson boolJson c.override_indent_has_left_vline) from rfl, e]
    rfl
  · have e : c.override_striped = none := Option.isNone_iff_eq_none.mp hnone
    rw [show lookupJson "override_striped" c.toJsonFields
          = some (optJson boolJson c.override_striped) from rfl, e]
    rfl
  · have e : c.override_slider_trailing_fill = none := Option.isNone_iff_eq_none.mp hnone
    rw [show lookupJson "override_slider_trailing_fill" c.toJsonFields
          = some (optJson boolJson c.override_slider_trailing_fill) from rfl, e]
    rfl

/-- The configuration of claim C5: name `"Custom"`, light mode, only the
window fill overridden. -/
def c5Config : ThemeConfig :=
  { ThemeConfig.default with
    name := "Custom",
    dark_mode := false,
    override_window_fill := some ⟨10, 20, 30, 255⟩ }

/-- Counterexample to claim C5 as stated: `override_text_color` is `None` in
the configuration, yet its key is present in the serialized document (bound
to `null`), so `None` fields are not omitted and other override keys do
appear. -/
theorem claim5_counterexample :
    c5Config.override_text_color = none ∧
    lookupJson "override_text_color" c5Config.toJsonFields = some Json.null :=
  ⟨rfl, rfl⟩

/-- Claim C5 as amended: serializing `c5Config` produces a document with
`"name": "Custom"`, `"dark_mode": false`, `"override_window_fill":
[10,20,30,255]`, and every other override key present with value `null`; in
general, every override field that is `None` is written as an explicit `null`
rather than omitted. -/
theorem claim5_serialized_none_as_null :
    lookupJson "name" c5Config.toJsonFields = some (.str "Custom") ∧
    lookupJson "dark_mode" c5Config.toJsonFields = some (.bool false) ∧
    lookupJson "override_window_fill" c5Config.toJsonFields
      = some (.arr [.num 10, .num 20, .num 30, .num 255]) ∧
    (overrideKeys.filter (fun k => !(k == "override_window_fill"))).all
        (fun k => isNullAt k c5Config.toJsonFields) = true ∧
    (∀ (c : ThemeConfig) (key : String), key ∈ overrideKeys →
      fieldIsNone c key = true → lookupJson key c.toJsonFields = some Json.null) :=
  ⟨rfl, rfl, rfl, by decide, toJsonFields_null_of_none⟩

/-- Witness for C5 (amended): the striped-flag key of the scenario document is
bound to `null`. -/
theorem claim5_serialized_none_as_null_witness :
    lookupJson "override_striped" c5Config.toJsonFields = some Json.null :=
  claim5_serialized_none_as_null.2.2.2.2 c5Config "override_striped"
    (by decide) (by decide)

/-- One color draw of `ThemeConfig::randomize`: three bytes from the injected
stream starting at position `i`, with alpha fixed to 255 (the `random_color`
closure in `src/config.rs` lines 747-748). -/
def randomColor (s : Nat → Byte) (i : Nat) : Rgba :=
  ⟨s i, s (i + 1), s (i + 2), 255⟩

/-- Translation of `ThemeConfig::randomize` (`src/config.rs` lines 743-767).
The external `rand::thread_rng()` source is modelled as an injected coin flip
plus byte stream (the spec requires randomness to be injectable for testing);
bytes are consumed three at a time in the construction order of the Rust
struct literal. -/
def ThemeConfig.randomize (coin : Bool) (s : Nat → Byte) : ThemeConfig :=
  { ThemeConfig.default with
    name := "Random",
    dark_mode := coin,
    override_text_color := some (randomColor s 0),
    override_window_fill := some (randomColor s 3),
    override_panel_fill := some (randomColor s 6),
    override_selection_bg := some (randomColor s 9),
    override_hyperlink_color := some (randomColor s 12),
    override_faint_bg_color := some (randomColor s 15),
    override_extreme_bg_color := some (randomColor s 18),
    override_code_bg_color := some (randomColor s 21),
    override_warn_fg_color := some (randomColor s 24),
    override_error_fg_color := some (randomColor s 27) }

/-- Claim C7 (randomizer output shape): for every draw of the random source,
the result is named `"Random"`, each of the ten headline color overrides is
`Some` with alpha byte exactly 255, and every other override field is
`None`. -/
theorem claim7_randomizer_shape (coin : Bool) (s : Nat → Byte) :
    (ThemeConfig.randomize coin s).name = "Random" ∧
    ((ThemeConfig.randomize coin s).override_text_color).isSome = true ∧
    ((ThemeConfig.randomize coin s).override_window_fill).isSome = true ∧
    ((ThemeConfig.randomize coin s).override_panel_fill).isSome = true ∧
    ((ThemeConfig.randomize coin s).override_selection_bg).isSome = true ∧
    ((ThemeConfig.randomize coin s).override_hyperlink_color).isSome = true ∧
    ((ThemeConfig.randomize coin s).override_faint_bg_color).isSome = true ∧
    ((ThemeConfig.randomize coin s).override_extreme_bg_color).isSome = true ∧
    ((ThemeConfig.randomize coin s).override_code_bg_color).isSome = true ∧
    ((ThemeConfig.randomize coin s).override_warn_fg_color).isSome = true ∧
    ((ThemeConfig.randomize coin s).override_error_fg_color).isSome = true ∧
    ((ThemeConfig.randomize coin s).override_text_color).map Rgba.a = some 255 ∧
    ((ThemeConfig.randomize coin s).override_window_fill).map Rgba.a = some 255 ∧
    ((ThemeConfig.randomize coin s).override_panel_fill).map Rgba.a = some 255 ∧
    ((ThemeConfig.randomize coin s).override_selection_bg).map Rgba.a = some 255 ∧
    ((ThemeConfig.randomize coin s).override_hyperlink_color).map Rgba.a = some 255 ∧
    ((ThemeConfig.randomize coin s).override_faint_bg_color).map Rgba.a = some 255 ∧
    ((ThemeConfig.randomize coin s).override_extreme_bg_color).map Rgba.a = some 255 ∧
    ((ThemeConfig.randomize coin s).override_code_bg_color).map Rgba.a = some 255 ∧
    ((ThemeConfig.randomize coin s).override_warn_fg_color).map Rgba.a = some 255 ∧
    ((ThemeConfig.randomize coin s).override_error_fg_color).map Rgba.a = some 255 ∧
    (ThemeConfig.randomize coin s).override_weak_text_color = none ∧
    (ThemeConfig.randomize coin s).override_window_stroke_color = none ∧
    (ThemeConfig.randomize coin s).override_window_stroke_width = none ∧
    (ThemeConfig.randomize coin s).override_window_corner_radius = none ∧
    (ThemeConfig.randomize coin s).override_window_shadow_size = none ∧
    (ThemeConfig.randomize coin s).override_popup_shadow_size = none ∧
    (ThemeConfig.randomize coin s).override_selection_stroke_color = none ∧
    (ThemeConfig.randomize coin s).override_selection_stroke_width = none ∧
    (ThemeConfig.randomize coin s).override_widget_noninteractive_bg_fill = none ∧
    (ThemeConfig.randomize coin s).override_widget_noninteractive_weak_bg_fill = none ∧
    (ThemeConfig.randomize coin s).override_widget_noninteractive_bg_stroke_color = none ∧
    (ThemeConfig.randomize coin s).override_widget_noninteractive_bg_stroke_width = none ∧
    (ThemeConfig.randomize coin s).override_widget_noninteractive_corner_radius = none ∧
    (ThemeConfig.randomize coin s).override_widget_noninteractive_fg_stroke_color = none ∧
    (ThemeConfig.randomize coin s).override_widget_noninteractive_fg_stroke_width = none ∧
    (ThemeConfig.randomize coin s).override_widget_noninteractive_expansion = none ∧
    (ThemeConfig.randomize coin s).override_widget_inactive_bg_fill = none ∧
    (ThemeConfig.randomize coin s).override_widget_inactive_weak_bg_fill = none ∧
    (ThemeConfig.randomize coin s).override_widget_inactive_bg_stroke_color = none ∧
    (ThemeConfig.randomize coin s).override_widget_inactive_bg_stroke_width = none ∧
    (ThemeConfig.randomize coin s).override_widget_inactive_corner_radius = none ∧
    (ThemeConfig.randomize coin s).override_widget_inactive_fg_stroke_color = none ∧
    (ThemeConfig.randomize coin s).override_widget_inactive_fg_stroke_width = none ∧
    (ThemeConfig.randomize coin s).override_widget_inactive_expansion = none ∧
    (ThemeConfig.randomize coin s).override_widget_hovered_bg_fill = none ∧
    (ThemeConfig.randomize coin s).override_widget_hovered_weak_bg_fill = none ∧
    (ThemeConfig.randomize coin s).override_widget_hovered_bg_stroke_color = none ∧
    (ThemeConfig.randomize coin s).override_widget_hovered_bg_stroke_width = none ∧
    (ThemeConfig.randomize coin s).override_widget_hovered_corner_radius = none ∧
    (ThemeConfig.randomize coin s).override_widget_hovered_fg_stroke_color = none ∧
    (ThemeConfig.randomize coin s).override_widget_hovered_fg_stroke_width = none ∧
    (ThemeConfig.randomize coin s).override_widget_hovered_expansion = none ∧
    (ThemeConfig.randomize coin s).override_widget_active_bg_fill = none ∧
    (ThemeConfig.randomize coin s).override_widget_active_weak_bg_fill = none ∧
    (ThemeConfig.randomize coin s).override_widget_active_bg_stroke_color = none ∧
    (ThemeConfig.randomize coin s).override_widget_active_bg_stroke_width = none ∧
    (ThemeConfig.randomize coin s).override_widget_active_corner_radius = none ∧
    (ThemeConfig.randomize coin s).override_widget_active_fg_stroke_color = none ∧
    (ThemeConfig.randomize coin s).override_widget_active_fg_stroke_width = none ∧
    (ThemeConfig.randomize coin s).override_widget_active_expansion = none ∧
    (ThemeConfig.randomize coin s).override_widget_open_bg_fill = none ∧
    (ThemeConfig.randomize coin s).override_widget_open_weak_bg_fill = none ∧
    (ThemeConfig.randomize coin s).override_widget_open_bg_stroke_color = none ∧
    (ThemeConfig.randomize coin s).override_widget_open_bg_stroke_width = none ∧
    (ThemeConfig.randomize coin s).override_widget_open_corner_radius = none ∧
    (ThemeConfig.randomize coin s).override_widget_open_fg_stroke_color = none ∧
    (ThemeConfig.randomize coin s).override_widget_open_fg_stroke_width = none ∧
    (ThemeConfig.randomize coin s).override_widget_open_expansion = none ∧
    (ThemeConfig.randomize coin s).override_resize_corner_size = none ∧
    (ThemeConfig.randomize coin s).override_text_cursor_width = none ∧
    (ThemeConfig.randomize coin s).override_clip_rect_margin = none ∧
    (ThemeConfig.randomize coin s).override_button_frame = none ∧
    (ThemeConfig.randomize coin s).override_collapsing_header_frame = none ∧
    (ThemeConfig.randomize coin s).override_indent_has_left_vline = none ∧
    (ThemeConfig.randomize coin s).override_striped = none ∧
    (ThemeConfig.randomize coin s).override_slider_trailing_fill = none :=
  ⟨rfl, rfl, rfl, rfl, rfl, rfl, rfl, rfl, rfl, rfl, rfl, rfl, rfl, rfl, rfl, rfl, rfl, rfl, rfl, rfl, rfl, rfl, rfl, rfl, rfl, rfl, rfl, rfl, rfl, rfl, rfl, rfl, rfl, rfl, rfl, rfl, rfl, rfl, rfl, rfl, rfl, rfl, rfl, rfl, rfl, rfl, rfl, rfl, rfl, rfl, rfl, rfl, rfl, rfl, rfl, rfl, rfl, rfl, rfl, rfl, rfl, rfl, rfl, rfl, rfl, rfl, rfl, rfl, rfl, rfl, rfl, rfl, rfl, rfl, rfl, rfl, rfl⟩

/-- Presence pattern of the richer presets: exactly the ten documented
headline color keys populated, every other override `None`. -/
def headlinePopulated (c : ThemeConfig) : Bool :=
  c.override_text_color.isSome &&
    c.override_window_fill.isSome &&
    c.override_panel_fill.isSome &&
    c.override_selection_bg.isSome &&
    c.override_hyperlink_color.isSome &&
    c.override_faint_bg_color.isSome &&
    c.override_extreme_bg_color.isSome &&
    c.override_code_bg_color.isSome &&
    c.override_warn_fg_color.isSome &&
    c.override_error_fg_color.isSome &&
    c.override_weak_text_color.isNone &&
    c.override_window_stroke_color.isNone &&
    c.override_window_stroke_width.isNone &&
    c.override_window_corner_radius.isNone &&
    c.override_window_shadow_size.isNone &&
    c.override_popup_shadow_size.isNone &&
    c.override_selection_stroke_color.isNone &&
    c.override_selection_stroke_width.isNone &&
    c.override_widget_noninteractive_bg_fill.isNone &&
    c.override_widget_noninteractive_weak_bg_fill.isNone &&
    c.override_widget_noninteractive_bg_stroke_color.isNone &&
    c.override_widget_noninteractive_bg_stroke_width.isNone &&
    c.override_widget_noninteractive_corner_radius.isNone &&
    c.override_widget_noninteractive_fg_stroke_color.isNone &&
    c.override_widget_noninteractive_fg_stroke_width.isNone &&
    c.override_widget_noninteractive_expansion.isNone &&
    c.override_widget_inactive_bg_fill.isNone &&
    c.override_widget_inactive_weak_bg_fill.isNone &&
    c.override_widget_inactive_bg_stroke_color.isNone &&
    c.override_widget_inactive_bg_stroke_width.isNone &&
    c.override_widget_inactive_corner_radius.isNone &&
    c.override_widget_inactive_fg_stroke_color.isNone &&
    c.override_widget_inactive_fg_stroke_width.isNone &&
    c.override_widget_inactive_expansion.isNone &&
    c.override_widget_hovered_bg_fill.isNone &&
    c.override_widget_hovered_weak_bg_fill.isNone &&
    c.override_widget_hovered_bg_stroke_color.isNone &&
    c.override_widget_hovered_bg_stroke_width.isNone &&
    c.override_widget_hovered_corner_radius.isNone &&
    c.override_widget_hovered_fg_stroke_color.isNone &&
    c.override_widget_hovered_fg_stroke_width.isNone &&
    c.override_widget_hovered_expansion.isNone &&
    c.override_widget_active_bg_fill.isNone &&
    c.override_widget_active_weak_bg_fill.isNone &&
    c.override_widget_active_bg_stroke_color.isNone &&
    c.override_widget_active_bg_stroke_width.isNone &&
    c.override_widget_active_corner_radius.isNone &&
    c.override_widget_active_fg_stroke_color.isNone &&
    c.override_widget_active_fg_stroke_width.isNone &&
    c.override_widget_active_expansion.isNone &&
    c.override_widget_open_bg_fill.isNone &&
    c.override_widget_open_weak_bg_fill.isNone &&
    c.override_widget_open_bg_stroke_color.isNone &&
    c.override_widget_open_bg_stroke_width.isNone &&
    c.override_widget_open_corner_radius.isNone &&
    c.override_widget_open_fg_stroke_color.isNone &&
    c.override_widget_open_fg_stroke_width.isNone &&
    c.override_widget_open_expansion.isNone &&
    c.override_resize_corner_size.isNone &&
    c.override_text_cursor_width.isNone &&
    c.override_clip_rect_margin.isNone &&
    c.override_button_frame.isNone &&
    c.override_collapsing_header_frame.isNone &&
    c.override_indent_has_left_vline.isNone &&
    c.override_striped.isNone &&
    c.override_slider_trailing_fill.isNone

/-- Claim C8 (preset catalog): the catalog has fixed length 11; its first two
entries are the `"Dark"` and `"Light"` presets, which set nothing beyond the
mode flag; and every richer preset populates exactly the ten documented
headline color keys plus name and mode.  (Determinism of the factories is
inherent to the embedding: each is a constant.) -/
theorem claim8_preset_catalog :
    ThemeConfig.all_presets.length = 11 ∧
    ThemeConfig.all_presets.head? = some ThemeConfig.dark_preset ∧
    ThemeConfig.all_presets[1]? = some ThemeConfig.light_preset ∧
    ThemeConfig.dark_preset.name = "Dark" ∧
    ThemeConfig.dark_preset.dark_mode = true ∧
    ThemeConfig.dark_preset.hasNoOverrides = true ∧
    ThemeConfig.light_preset.name = "Light" ∧
    ThemeConfig.light_preset.dark_mode = false ∧
    ThemeConfig.light_preset.hasNoOverrides = true ∧
    (ThemeConfig.all_presets.drop 2).all headlinePopulated = true := by
  decide

/-- Decimal rendering of a byte, as `format!("{}")` renders a `u8`. -/
def natLit (n : Nat) : String :=
  toString n

/-- Rendering of a boolean, as `format!("{}")` renders a `bool`. -/
def boolLit (b : Bool) : String :=
  if b then "true" else "false"

/-- The four comma-separated channel arguments of a generated color call. -/
def rustColorArgs (col : Rgba) : String :=
  natLit col.r.val ++ ", " ++ natLit col.g.val ++ ", "
    ++ natLit col.b.val ++ ", " ++ natLit col.a.val

/-- The fixed opening lines of the generated function (`src/config.rs` lines
679-684). -/
def codeHeader (dark : Bool) : String :=
  "fn apply_theme(ctx: &egui::Context) \x7b\n"
    ++ ("    let mut visuals = if " ++ boolLit dark ++ " \x7b\n")
    ++ "        egui::Visuals::dark()\n"
    ++ "    \x7d else \x7b\n"
    ++ "        egui::Visuals::light()\n"
    ++ "    \x7d;\n\n"

/-- The fixed closing lines of the generated function (`src/config.rs` lines
738-739). -/
def codeFooter : String :=
  "\n    ctx.set_visuals(visuals);\n" ++ "\x7d\n"

/-- The generated line for a present text-color override. -/
def textColorLine (col : Rgba) : String :=
  "    visuals.override_text_color = Some(egui::Color32::from_rgba_unmultiplied("
    ++ rustColorArgs col ++ "));\n"

/-- The generated line for a present window-fill override. -/
def windowFillLine (col : Rgba) : String :=
  "    visuals.window_fill = egui::Color32::from_rgba_unmultiplied("
    ++ rustColorArgs col ++ ");\n"

/-- The generated line for a present panel-fill override. -/
def panelFillLine (col : Rgba) : String :=
  "    visuals.panel_fill = egui::Color32::from_rgba_unmultiplied("
    ++ rustColorArgs col ++ ");\n"

/-- The generated line for a present selection-background override. -/
def selectionBgLine (col : Rgba) : String :=
  "    visuals.selection.bg_fill = egui::Color32::from_rgba_unmultiplied("
    ++ rustColorArgs col ++ ");\n"

/-- The generated line for a present hyperlink-color override. -/
def hyperlinkLine (col : Rgba) : String :=
  "    visuals.hyperlink_color = egui::Color32::from_rgba_unmultiplied("
    ++ rustColorArgs col ++ ");\n"

/-- The generated line for a present faint-background override. -/
def faintBgLine (col : Rgba) : String :=
  "    visuals.faint_bg_color = egui::Color32::from_rgba_unmultiplied("
    ++ rustColorArgs col ++ ");\n"

/-- The generated line for a present extreme-background override. -/
def extremeBgLine (col : Rgba) : String :=
  "    visuals.extreme_bg_color = egui::Color32::from_rgba_unmultiplied("
    ++ rustColorArgs col ++ ");\n"

/-- The generated line for a present code-background override. -/
def codeBgLine (col : Rgba) : String :=
  "    visuals.code_bg_color = egui::Color32::from_rgba_unmultiplied("
    ++ rustColorArgs col ++ ");\n"

/-- The generated line for a present warning-foreground override. -/
def warnFgLine (col : Rgba) : String :=
  "    visuals.warn_fg_color = egui::Color32::from_rgba_unmultiplied("
    ++ rustColorArgs col ++ ");\n"

/-- The generated line for a present error-foreground override. -/
def errorFgLine (col : Rgba) : String :=
  "    visuals.error_fg_color = egui::Color32::from_rgba_unmultiplied("
    ++ rustColorArgs col ++ ");\n"

/-- An `if let Some(..)` block of the exporter: the line for a present
override, nothing for an absent one. -/
def optSnippet (f : α → String) : Option α → String
  | some v => f v
  | none => ""

/-- Translation of `ThemeConfig::to_rust_code` (`src/config.rs` lines
677-741): the sequential `push_str` calls rendered as one concatenation in
the same order.  Only ten of the 66 override fields are rendered. -/
def ThemeConfig.to_rust_code (c : ThemeConfig) : String :=
  codeHeader c.dark_mode
    ++ optSnippet textColorLine c.override_text_color
    ++ optSnippet windowFillLine c.override_window_fill
    ++ optSnippet panelFillLine c.override_panel_fill
    ++ optSnippet selectionBgLine c.override_selection_bg
    ++ optSnippet hyperlinkLine c.override_hyperlink_color
    ++ optSnippet faintBgLine c.override_faint_bg_color
    ++ optSnippet extremeBgLine c.override_extreme_bg_color
    ++ optSnippet codeBgLine c.override_code_bg_color
    ++ optSnippet warnFgLine c.override_warn_fg_color
    ++ optSnippet errorFgLine c.override_error_fg_color
    ++ codeFooter

/-- A present override as a one-element list of its generated line. -/
def optLine (f : α → String) : Option α → List String
  | some v => [f v]
  | none => []

/-- The list of override lines the exporter emits, in its fixed order. -/
def emittedLines (c : ThemeConfig) : List String :=
  optLine textColorLine c.override_text_color
    ++ optLine windowFillLine c.override_window_fill
    ++ optLine panelFillLine c.override_panel_fill
    ++ optLine selectionBgLine c.override_selection_bg
    ++ optLine hyperlinkLine c.override_hyperlink_color
    ++ optLine faintBgLine c.override_faint_bg_color
    ++ optLine extremeBgLine c.override_extreme_bg_color
    ++ optLine codeBgLine c.override_code_bg_color
    ++ optLine warnFgLine c.override_warn_fg_color
    ++ optLine errorFgLine c.override_error_fg_color

/-- The override keys of the lines the exporter emits, in its fixed order. -/
def headlineTags (c : ThemeConfig) : List String :=
  optLine (fun _ => "override_text_color") c.override_text_color
    ++ optLine (fun _ => "override_window_fill") c.override_window_fill
    ++ optLine (fun _ => "override_panel_fill") c.override_panel_fill
    ++ optLine (fun _ => "override_selection_bg") c.override_selection_bg
    ++ optLine (fun _ => "override_hyperlink_color") c.override_hyperlink_color
    ++ optLine (fun _ => "override_faint_bg_color") c.override_faint_bg_color
    ++ optLine (fun _ => "override_extreme_bg_color") c.override_extreme_bg_color
    ++ optLine (fun _ => "override_code_bg_color") c.override_code_bg_color
    ++ optLine (fun _ => "override_warn_fg_color") c.override_warn_fg_color
    ++ optLine (fun _ => "override_error_fg_color") c.override_error_fg_color

/-- The ten override keys the exporter renders, in its fixed output order. -/
def generatorKeys : List String :=
  ["override_text_color", "override_window_fill", "override_panel_fill",
   "override_selection_bg", "override_hyperlink_color", "override_faint_bg_color",
   "override_extreme_bg_color", "override_code_bg_color", "override_warn_fg_color",
   "override_error_fg_color"]

/-- Presence test for an override field selected by its JSON key. -/
def presentKey (c : ThemeConfig) (key : String) : Bool :=
  !(fieldIsNone c key)

/-- Concatenation of a list of code lines. -/
def concatStrings : List String → String
  | [] => ""
  | s :: rest => s ++ concatStrings rest

/-- Concatenation of lines distributes over list append. -/
theorem concatStrings_append (l1 l2 : List String) :
    concatStrings (l1 ++ l2) = concatStrings l1 ++ concatStrings l2 := by
  induction l1 with
  | nil => rw [List.nil_append, concatStrings, String.empty_append]
  | cons s t ih => rw [List.cons_append, concatStrings, concatStrings, ih, String.append_assoc]

/-- Concatenating the line list of one optional override gives its snippet. -/
theorem concatStrings_optLine {α : Type} (f : α → String) (o : Option α) :
    concatStrings (optLine f o) = optSnippet f o := by
  cases o with
  | none => rfl
  | some v => rw [optLine, concatStrings, concatStrings, String.append_empty, optSnippet]

/-- A constant-keyed line list is a conditional singleton. -/
theorem optLine_const {α : Type} (k : String) (o : Option α) :
    optLine (fun _ => k) o = if o.isSome then [k] else [] := by
  cases o <;> rfl

/-- Prepending a conditional singleton is a conditional cons. -/
theorem ite_cons_append {α : Type} (b : Bool) (k : α) (rest : List α) :
    (if b then [k] else []) ++ rest = if b then k :: rest else rest := by
  cases b <;> rfl


/-- Appending after a conditional list distributes into both branches. -/
theorem ite_append {α : Type} (b : Bool) (x y rest : List α) :
    (if b then x else y) ++ rest = if b then x ++ rest else y ++ rest := by
  cases b <;> rfl

/-- Negated `isNone` is `isSome`. -/
theorem not_isNone_eq_isSome {α : Type} (o : Option α) : (!o.isNone) = o.isSome := by
  cases o <;> rfl

/-- Count of (possibly overlapping) occurrences of a character pattern in a
character list. -/
def countOccur (pat : List Char) : List Char → Nat
  | [] => 0
  | c :: rest => (if pat.isPrefixOf (c :: rest) then 1 else 0) + countOccur pat rest

/-- A configuration whose only override is the striped flag -- a field the
code exporter never renders. -/
def c9Config : ThemeConfig :=
  { ThemeConfig.default with override_striped := some true }

set_option maxRecDepth 10000 in
/-- Counterexample to claim C9 as stated: `override_striped` is present
(`Some true`) in the input, yet the exported source string contains zero
occurrences of the substring `"striped"`, so not every present override key
appears exactly once in the output. -/
theorem claim9_counterexample :
    c9Config.override_striped = some true ∧
    countOccur "striped".data (ThemeConfig.to_rust_code c9Config).data = 0 :=
  ⟨rfl, by decide⟩

/-- Claim C9 as amended: the exporter renders exactly the present keys among
its ten headline color overrides, one line each, in its fixed output order
(text, window fill, panel fill, selection background, hyperlink, faint,
extreme and code backgrounds, warn and error foregrounds); override fields
outside these ten are not rendered.  The first conjunct pins the emitted-line
decomposition of the real output string, the second gives the emitted keys as
the presence-filtered key list in that order, and the third gives each key at
most once. -/
theorem claim9_code_export_headline (c : ThemeConfig) :
    c.to_rust_code = codeHeader c.dark_mode ++ concatStrings (emittedLines c) ++ codeFooter ∧
    headlineTags c = generatorKeys.filter (presentKey c) ∧
    (headlineTags c).Nodup := by
  have h1 : c.to_rust_code
      = codeHeader c.dark_mode ++ concatStrings (emittedLines c) ++ codeFooter := by
    simp only [ThemeConfig.to_rust_code, emittedLines, concatStrings_append,
      concatStrings_optLine, List.append_assoc, String.append_assoc]
  have h2 : headlineTags c = generatorKeys.filter (presentKey c) := by
    simp +decide only [headlineTags, generatorKeys, List.filter_cons, List.filter_nil,
      optLine_const, List.append_assoc, ite_append, List.singleton_append,
      List.cons_append, List.nil_append, List.append_nil, if_true, if_false,
      presentKey, fieldIsNone, not_isNone_eq_isSome]
  refine ⟨h1, h2, ?_⟩
  rw [h2]
  exact (show generatorKeys.Nodup by decide).filter (presentKey c)
